import Mathlib

/-!
Verification of the EdgeNPU control/execution stack against its
natural-language specification.

The definitions below are a shallow embedding of the C sources:

  - software/firmware/include/npu_fw_inst.h   (instruction codec)
  - software/firmware/include/npu_fw_regs.h   (register map, HW parameters)
  - software/firmware/runtime/npu_layer_exec.c (layer compiler)
  - software/firmware/runtime/npu_runtime_fw.c (firmware runtime)
  - software/driver/src/npu_driver.c           (host driver)

Machine integers are modelled as Nat with explicit wrap-around
(mod 2^w) where the C performs fixed-width arithmetic.  Memory-mapped
registers are modelled as a function from (word) address to value;
successive hardware reads of the status register inside a polling loop
are modelled by a trace function from the poll index to the value read.
Potentially non-terminating polling loops take a fuel argument and
return none when the fuel runs out while the loop is still spinning.
The C float field pe_utilization is modelled over the rationals; only
its zero/guard behaviour is reasoned about, never rounding.
-/

/- ==========================================================================
   Fixed-width wrap helpers (C unsigned arithmetic)
   ========================================================================== -/

def U8 (x : Nat) : Nat := x % 2 ^ 8

def U16 (x : Nat) : Nat := x % 2 ^ 16

def U32 (x : Nat) : Nat := x % 2 ^ 32

def U64 (x : Nat) : Nat := x % 2 ^ 64

/- ==========================================================================
   npu_fw_inst.h : opcodes, flags, instruction builders, decoders
   ========================================================================== -/

def OP_NOP : Nat := 0x00
def OP_HALT : Nat := 0x01
def OP_SYNC : Nat := 0x02
def OP_WAIT_DMA : Nat := 0x03
def OP_WAIT_PE : Nat := 0x04
def OP_DMA_LOAD_W : Nat := 0x10
def OP_DMA_LOAD_A : Nat := 0x11
def OP_DMA_STORE : Nat := 0x12
def OP_CLEAR_ACC : Nat := 0x26
def OP_LOAD_WEIGHT : Nat := 0x27
def OP_COMPUTE : Nat := 0x28
def OP_DRAIN : Nat := 0x29
def OP_MAXPOOL : Nat := 0x50
def OP_AVGPOOL : Nat := 0x51
def OP_GLOBAL_AVGPOOL : Nat := 0x52
def OP_ADD : Nat := 0x60

def FLAG_LAST : Nat := 1
def FLAG_IRQ : Nat := 2
def FLAG_CHAIN : Nat := 4
def FLAG_ASYNC : Nat := 8
def FLAG_RELU : Nat := 16
def FLAG_BIAS : Nat := 32
def FLAG_QUANT : Nat := 64
def FLAG_ACCUM : Nat := 128

/-- MAKE_INST(op, fl, ops) from npu_fw_inst.h:
    (uint64_t)(op) << 56 | (uint64_t)(fl) << 48 | ((uint64_t)(ops) & 0xFFFFFFFFFFFF).
    The whole expression has type uint64_t, hence the outer wrap. -/
def MAKE_INST (op fl ops : Nat) : Nat :=
  U64 (op <<< 56 ||| fl <<< 48 ||| (ops &&& 0xFFFFFFFFFFFF))

/-- inst_get_opcode: bitfield opcode = bits 63:56 of the raw word. -/
def inst_get_opcode (raw : Nat) : Nat := (raw >>> 56) &&& 0xFF

/-- inst_get_flags: bitfield flags = bits 55:48 of the raw word. -/
def inst_get_flags (raw : Nat) : Nat := (raw >>> 48) &&& 0xFF

/-- inst_get_operands: bitfield operands = bits 47:0 of the raw word. -/
def inst_get_operands (raw : Nat) : Nat := raw &&& 0xFFFFFFFFFFFF

/-- INST_NOP() -/
def INST_NOP : Nat := MAKE_INST OP_NOP 0 0

/-- INST_HALT() -/
def INST_HALT : Nat := MAKE_INST OP_HALT FLAG_LAST 0

/-- INST_WAIT_DMA() -/
def INST_WAIT_DMA : Nat := MAKE_INST OP_WAIT_DMA 0 0

/-- INST_DMA_LOAD_W(src, dst, len); the operand expression is uint64_t. -/
def INST_DMA_LOAD_W (src dst len : Nat) : Nat :=
  MAKE_INST OP_DMA_LOAD_W 0 (U64 (src ||| dst <<< 24 ||| len <<< 40))

/-- INST_DMA_LOAD_A(src, dst, len) -/
def INST_DMA_LOAD_A (src dst len : Nat) : Nat :=
  MAKE_INST OP_DMA_LOAD_A 0 (U64 (src ||| dst <<< 24 ||| len <<< 40))

/-- INST_DMA_STORE(src, dst, len) -/
def INST_DMA_STORE (src dst len : Nat) : Nat :=
  MAKE_INST OP_DMA_STORE 0 (U64 (src ||| dst <<< 24 ||| len <<< 40))

/-- INST_CLEAR_ACC() -/
def INST_CLEAR_ACC : Nat := MAKE_INST OP_CLEAR_ACC 0 0

/-- INST_LOAD_WEIGHT(addr, count) -/
def INST_LOAD_WEIGHT (addr count : Nat) : Nat :=
  MAKE_INST OP_LOAD_WEIGHT 0 (U64 (addr ||| count <<< 24))

/-- INST_COMPUTE(flags) -/
def INST_COMPUTE (flags : Nat) : Nat := MAKE_INST OP_COMPUTE flags 0

/-- INST_DRAIN(addr) -/
def INST_DRAIN (addr : Nat) : Nat := MAKE_INST OP_DRAIN 0 addr

/- ==========================================================================
   Codec lemmas
   ========================================================================== -/

theorem mask48_eq : (0xFFFFFFFFFFFF : Nat) = 2 ^ 48 - 1 := by norm_num

theorem mask8_eq : (0xFF : Nat) = 2 ^ 8 - 1 := by norm_num

/-- The packed 64-bit word, written additively. -/
theorem MAKE_INST_eq (o f v : Nat) (ho : o < 256) (hf : f < 256) :
    MAKE_INST o f v = o * 2 ^ 56 + f * 2 ^ 48 + v % 2 ^ 48 := by
  unfold MAKE_INST U64
  rw [mask48_eq, Nat.and_pow_two_sub_one_eq_mod]
  have h1 : o <<< 56 ||| f <<< 48 = o * 2 ^ 56 + f * 2 ^ 48 := by
    rw [Nat.shiftLeft_eq, Nat.shiftLeft_eq]
    have hb : f * 2 ^ 48 < 2 ^ 56 := by
      calc f * 2 ^ 48 < 256 * 2 ^ 48 := by
            exact Nat.mul_lt_mul_of_lt_of_le hf (Nat.le_refl _) (by norm_num)
        _ = 2 ^ 56 := by norm_num
    have := Nat.mul_add_lt_is_or hb o
    rw [Nat.mul_comm (2 ^ 56) o] at this
    exact this.symm
  rw [h1]
  have h2 : o * 2 ^ 56 + f * 2 ^ 48 ||| v % 2 ^ 48
      = o * 2 ^ 56 + f * 2 ^ 48 + v % 2 ^ 48 := by
    have hb : v % 2 ^ 48 < 2 ^ 48 := Nat.mod_lt _ (by norm_num)
    have heq : o * 2 ^ 56 + f * 2 ^ 48 = 2 ^ 48 * (o * 2 ^ 8 + f) := by ring
    rw [heq]
    exact (Nat.mul_add_lt_is_or hb (o * 2 ^ 8 + f)).symm
  rw [h2]
  have hlt : o * 2 ^ 56 + f * 2 ^ 48 + v % 2 ^ 48 < 2 ^ 64 := by
    have hm : v % 2 ^ 48 < 2 ^ 48 := Nat.mod_lt _ (by norm_num)
    norm_num at ho hf hm ⊢
    omega
  exact Nat.mod_eq_of_lt hlt

/-- Decoding the opcode of a packed word recovers the opcode. -/
theorem inst_get_opcode_MAKE_INST (o f v : Nat) (ho : o < 256) (hf : f < 256) :
    inst_get_opcode (MAKE_INST o f v) = o := by
  rw [MAKE_INST_eq o f v ho hf]
  unfold inst_get_opcode
  rw [mask8_eq, Nat.and_pow_two_sub_one_eq_mod, Nat.shiftRight_eq_div_pow]
  have hm : v % 2 ^ 48 < 2 ^ 48 := Nat.mod_lt _ (by norm_num)
  norm_num at ho hf hm ⊢
  omega

/-- Decoding the flags of a packed word recovers the flags. -/
theorem inst_get_flags_MAKE_INST (o f v : Nat) (ho : o < 256) (hf : f < 256) :
    inst_get_flags (MAKE_INST o f v) = f := by
  rw [MAKE_INST_eq o f v ho hf]
  unfold inst_get_flags
  rw [mask8_eq, Nat.and_pow_two_sub_one_eq_mod, Nat.shiftRight_eq_div_pow]
  have hm : v % 2 ^ 48 < 2 ^ 48 := Nat.mod_lt _ (by norm_num)
  norm_num at ho hf hm ⊢
  omega

/-- Decoding the operand field recovers the operand masked to 48 bits. -/
theorem inst_get_operands_MAKE_INST (o f v : Nat) (ho : o < 256) (hf : f < 256) :
    inst_get_operands (MAKE_INST o f v) = v &&& 0xFFFFFFFFFFFF := by
  rw [MAKE_INST_eq o f v ho hf]
  unfold inst_get_operands
  rw [mask48_eq, Nat.and_pow_two_sub_one_eq_mod, Nat.and_pow_two_sub_one_eq_mod]
  have hm : v % 2 ^ 48 < 2 ^ 48 := Nat.mod_lt _ (by norm_num)
  norm_num at ho hf hm ⊢
  omega

/-- C1: for every 8-bit opcode o, 8-bit flags f and operand v, decoding the
64-bit instruction built by MAKE_INST yields exactly (o, f, v masked to the
low 48 bits). -/
theorem C1_encode_decode_roundtrip (o f v : Nat) (ho : o < 256) (hf : f < 256) :
    inst_get_opcode (MAKE_INST o f v) = o ∧
    inst_get_flags (MAKE_INST o f v) = f ∧
    inst_get_operands (MAKE_INST o f v) = v &&& 0xFFFFFFFFFFFF :=
  ⟨inst_get_opcode_MAKE_INST o f v ho hf,
   inst_get_flags_MAKE_INST o f v ho hf,
   inst_get_operands_MAKE_INST o f v ho hf⟩

/-- Witness for C1 at opcode 0x28, flags 0x12, operand 2^50 + 77. -/
theorem C1_encode_decode_roundtrip_witness :
    (0x28 : Nat) < 256 ∧ (0x12 : Nat) < 256 ∧
    (inst_get_opcode (MAKE_INST 0x28 0x12 (2 ^ 50 + 77)) = 0x28 ∧
     inst_get_flags (MAKE_INST 0x28 0x12 (2 ^ 50 + 77)) = 0x12 ∧
     inst_get_operands (MAKE_INST 0x28 0x12 (2 ^ 50 + 77))
        = (2 ^ 50 + 77) &&& 0xFFFFFFFFFFFF) :=
  ⟨by norm_num, by norm_num,
   C1_encode_decode_roundtrip 0x28 0x12 (2 ^ 50 + 77) (by norm_num) (by norm_num)⟩

/- ==========================================================================
   npu_fw_regs.h : hardware parameters and register addresses (firmware)
   ========================================================================== -/

def NPU_BASE : Nat := 0x40000000
def REG_CTRL : Nat := NPU_BASE + 0x000
def REG_STATUS : Nat := NPU_BASE + 0x004
def REG_IRQ_EN : Nat := NPU_BASE + 0x008
def REG_IRQ_STATUS : Nat := NPU_BASE + 0x00C
def REG_INST_BASE : Nat := NPU_BASE + 0x100
def REG_INST_SIZE : Nat := NPU_BASE + 0x104
def REG_INST_PTR : Nat := NPU_BASE + 0x108
def REG_WEIGHT_BASE : Nat := NPU_BASE + 0x200
def REG_WEIGHT_SIZE : Nat := NPU_BASE + 0x204
def REG_ACT_IN_BASE : Nat := NPU_BASE + 0x300
def REG_ACT_IN_SIZE : Nat := NPU_BASE + 0x304
def REG_ACT_OUT_BASE : Nat := NPU_BASE + 0x308
def REG_ACT_OUT_SIZE : Nat := NPU_BASE + 0x30C
def REG_DMA_CTRL : Nat := NPU_BASE + 0x400
def REG_DMA_STATUS : Nat := NPU_BASE + 0x404
def REG_DMA_SRC : Nat := NPU_BASE + 0x408
def REG_DMA_DST : Nat := NPU_BASE + 0x40C
def REG_DMA_LEN : Nat := NPU_BASE + 0x410
def REG_DMA_SRC_STRIDE : Nat := NPU_BASE + 0x414
def REG_DMA_DST_STRIDE : Nat := NPU_BASE + 0x418
def REG_PERF_CTRL : Nat := NPU_BASE + 0x600
def REG_PERF_CYCLES_LO : Nat := NPU_BASE + 0x604
def REG_PERF_CYCLES_HI : Nat := NPU_BASE + 0x608
def REG_PERF_INST_CNT : Nat := NPU_BASE + 0x60C
def REG_PERF_MAC_LO : Nat := NPU_BASE + 0x610
def REG_PERF_MAC_HI : Nat := NPU_BASE + 0x614
def REG_PERF_STALL_CNT : Nat := NPU_BASE + 0x618
def REG_LAYER_TYPE : Nat := NPU_BASE + 0x700
def REG_LAYER_IN_CH : Nat := NPU_BASE + 0x704
def REG_LAYER_OUT_CH : Nat := NPU_BASE + 0x708
def REG_LAYER_IN_H : Nat := NPU_BASE + 0x70C
def REG_LAYER_IN_W : Nat := NPU_BASE + 0x710
def REG_LAYER_OUT_H : Nat := NPU_BASE + 0x714
def REG_LAYER_OUT_W : Nat := NPU_BASE + 0x718
def REG_LAYER_KERNEL : Nat := NPU_BASE + 0x71C
def REG_LAYER_STRIDE : Nat := NPU_BASE + 0x720
def REG_LAYER_PADDING : Nat := NPU_BASE + 0x724
def REG_LAYER_ACT_TYPE : Nat := NPU_BASE + 0x728
def REG_LAYER_QUANT_SCALE : Nat := NPU_BASE + 0x730
def REG_LAYER_QUANT_ZERO : Nat := NPU_BASE + 0x734

def CTRL_ENABLE : Nat := 1
def CTRL_START : Nat := 2
def CTRL_RESET : Nat := 4
def CTRL_ABORT : Nat := 8

def STATUS_BUSY : Nat := 1
def STATUS_DONE : Nat := 2
def STATUS_ERROR : Nat := 4
def STATUS_IDLE : Nat := 8

def IRQ_DONE : Nat := 1
def IRQ_ERROR : Nat := 2
def IRQ_DMA_DONE : Nat := 4

def PERF_CTRL_ENABLE : Nat := 1
def PERF_CTRL_RESET : Nat := 2

def DMA_STATUS_BUSY : Nat := 1
def DMA_STATUS_DONE : Nat := 2
def DMA_STATUS_ERROR : Nat := 4

def DMA_CTRL_START : Nat := 1
def DMA_CTRL_IRQ_EN : Nat := 4
def DMA_CTRL_2D_MODE : Nat := 8
def DMA_CTRL_CH_SEL_SHIFT : Nat := 4

def DMA_CH_WEIGHT : Nat := 0
def DMA_CH_ACT_IN : Nat := 1
def DMA_CH_ACT_OUT : Nat := 2

def DMA_FLAG_2D : Nat := 1
def DMA_FLAG_IRQ : Nat := 2

def NPU_PE_ROWS : Nat := 16
def NPU_PE_COLS : Nat := 16
def NPU_INST_BUF_ENTRIES : Nat := 1024

/- ==========================================================================
   npu_fw_types.h : enums and descriptor structures
   ========================================================================== -/

inductive FwStatus where
  | FW_OK
  | FW_ERROR
  | FW_ERROR_INVALID_PARAM
  | FW_ERROR_TIMEOUT
  | FW_ERROR_BUSY
  | FW_ERROR_HW_FAULT
  | FW_ERROR_DMA
  | FW_ERROR_OVERFLOW
  | FW_ERROR_INVALID_OP
  | FW_ERROR_NOT_READY
deriving DecidableEq, Repr

open FwStatus

def NPU_STATE_RESET : Nat := 0
def NPU_STATE_INIT : Nat := 1
def NPU_STATE_IDLE : Nat := 2
def NPU_STATE_LOADING : Nat := 3
def NPU_STATE_RUNNING : Nat := 4
def NPU_STATE_DONE : Nat := 6
def NPU_STATE_ERROR : Nat := 7

def LAYER_CONV2D : Nat := 0
def LAYER_DWCONV2D : Nat := 1
def LAYER_FC : Nat := 2
def LAYER_MAXPOOL : Nat := 3
def LAYER_AVGPOOL : Nat := 4
def LAYER_GLOBAL_AVGPOOL : Nat := 5

def ACT_NONE : Nat := 0
def ACT_RELU : Nat := 1
def ACT_RELU6 : Nat := 2
def ACT_SIGMOID : Nat := 3
def ACT_TANH : Nat := 4

/-- tensor_desc_t (npu_fw_types.h); field widths as in the C struct. -/
structure TensorDesc where
  addr : Nat      -- uint32_t
  n : Nat         -- uint16_t
  c : Nat         -- uint16_t
  h : Nat         -- uint16_t
  w : Nat         -- uint16_t
  dtype : Nat     -- uint8_t
  layout : Nat    -- uint8_t
  zero_point : Int
  scale : Int
deriving DecidableEq, Repr

/-- layer_desc_t (npu_fw_types.h). -/
structure LayerDesc where
  type : Nat
  activation : Nat
  input : TensorDesc
  output : TensorDesc
  weight : TensorDesc
  bias : TensorDesc
  kernel_h : Nat
  kernel_w : Nat
  stride_h : Nat
  stride_w : Nat
  pad_top : Nat
  pad_bottom : Nat
  pad_left : Nat
  pad_right : Nat
  dilation_h : Nat
  dilation_w : Nat
  groups : Nat
  pool_h : Nat
  pool_w : Nat
  pool_stride_h : Nat
  pool_stride_w : Nat
  output_scale : Int
  output_zero_point : Int
  weight_zero_point : Int
  shift_bits : Nat
  round_mode : Nat
deriving DecidableEq, Repr

/-- get_activation_flags (npu_layer_exec.c): ReLU and ReLU6 map to
FLAG_RELU, everything else to 0. -/
def get_activation_flags (act : Nat) : Nat :=
  if act = ACT_RELU then FLAG_RELU
  else if act = ACT_RELU6 then FLAG_RELU
  else 0

/- ==========================================================================
   npu_rt_exec_conv (npu_layer_exec.c): the instruction sequence built into
   inst_buf, as a list in emission order.  uint32 arithmetic on addresses
   and sizes is wrapped with U32 exactly where the C computes in uint32.
   ========================================================================== -/

/-- The instruction sequence npu_rt_exec_conv builds into its inst_buf
array, in emission order (npu_layer_exec.c lines 90-137). -/
def conv_insts (layer : LayerDesc) : List Nat :=
  let in_ch := layer.input.c
  let out_ch := layer.output.c
  let out_h := layer.output.h
  let out_w := layer.output.w
  let k_h := layer.kernel_h
  let k_w := layer.kernel_w
  let tile_oc := NPU_PE_COLS
  let tile_ic := NPU_PE_ROWS
  let oc_tiles := (out_ch + tile_oc - 1) / tile_oc
  let ic_tiles := (in_ch + tile_ic - 1) / tile_ic
  INST_CLEAR_ACC ::
    ((List.range oc_tiles).flatMap (fun oc_t =>
      let oc_start := oc_t * tile_oc
      let oc_end := if oc_start + tile_oc > out_ch then out_ch else oc_start + tile_oc
      let oc_count := oc_end - oc_start
      let weight_offset := U32 (oc_start * in_ch * k_h * k_w)
      let weight_size := U32 (oc_count * in_ch * k_h * k_w)
      INST_DMA_LOAD_W (U32 (layer.weight.addr + weight_offset)) 0 weight_size ::
      INST_WAIT_DMA ::
      (((List.range ic_tiles).flatMap (fun ic_t =>
          [INST_LOAD_WEIGHT 0 oc_count,
           INST_COMPUTE
             (if ic_t = ic_tiles - 1 then get_activation_flags layer.activation else 0)]))
        ++ INST_DRAIN (U32 (layer.output.addr + U32 (oc_start * out_h * out_w))) ::
          (if oc_t < oc_tiles - 1 then [INST_CLEAR_ACC] else [])))
     ++ [INST_HALT])

/- ==========================================================================
   Decoding the individual builder instructions
   ========================================================================== -/

theorem inst_get_opcode_INST_CLEAR_ACC : inst_get_opcode INST_CLEAR_ACC = OP_CLEAR_ACC := by
  exact inst_get_opcode_MAKE_INST _ _ _ (by norm_num [OP_CLEAR_ACC]) (by norm_num)

theorem inst_get_opcode_INST_HALT : inst_get_opcode INST_HALT = OP_HALT := by
  exact inst_get_opcode_MAKE_INST _ _ _ (by norm_num [OP_HALT]) (by norm_num [FLAG_LAST])

theorem inst_get_opcode_INST_WAIT_DMA : inst_get_opcode INST_WAIT_DMA = OP_WAIT_DMA := by
  exact inst_get_opcode_MAKE_INST _ _ _ (by norm_num [OP_WAIT_DMA]) (by norm_num)

theorem inst_get_opcode_INST_DMA_LOAD_W (src dst len : Nat) :
    inst_get_opcode (INST_DMA_LOAD_W src dst len) = OP_DMA_LOAD_W := by
  exact inst_get_opcode_MAKE_INST _ _ _ (by norm_num [OP_DMA_LOAD_W]) (by norm_num)

theorem inst_get_opcode_INST_LOAD_WEIGHT (addr count : Nat) :
    inst_get_opcode (INST_LOAD_WEIGHT addr count) = OP_LOAD_WEIGHT := by
  exact inst_get_opcode_MAKE_INST _ _ _ (by norm_num [OP_LOAD_WEIGHT]) (by norm_num)

theorem inst_get_opcode_INST_DRAIN (addr : Nat) :
    inst_get_opcode (INST_DRAIN addr) = OP_DRAIN := by
  exact inst_get_opcode_MAKE_INST _ _ _ (by norm_num [OP_DRAIN]) (by norm_num)

theorem inst_get_opcode_INST_COMPUTE (fl : Nat) (h : fl < 256) :
    inst_get_opcode (INST_COMPUTE fl) = OP_COMPUTE := by
  exact inst_get_opcode_MAKE_INST _ _ _ (by norm_num [OP_COMPUTE]) h

theorem inst_get_flags_INST_COMPUTE (fl : Nat) (h : fl < 256) :
    inst_get_flags (INST_COMPUTE fl) = fl := by
  exact inst_get_flags_MAKE_INST _ _ _ (by norm_num [OP_COMPUTE]) h

theorem get_activation_flags_lt (a : Nat) : get_activation_flags a < 256 := by
  unfold get_activation_flags
  split
  · norm_num [FLAG_RELU]
  · split
    · norm_num [FLAG_RELU]
    · norm_num

/-- Opcode of the compute instruction emitted by the conv loop, for any
activation and any tile position. -/
theorem inst_get_opcode_INST_COMPUTE_act (c : Prop) [Decidable c] (a : Nat) :
    inst_get_opcode (INST_COMPUTE (if c then get_activation_flags a else 0)) = OP_COMPUTE := by
  split
  · exact inst_get_opcode_INST_COMPUTE _ (get_activation_flags_lt a)
  · exact inst_get_opcode_INST_COMPUTE _ (by norm_num)

theorem inst_get_flags_INST_COMPUTE_act (c : Prop) [Decidable c] (a : Nat) :
    inst_get_flags (INST_COMPUTE (if c then get_activation_flags a else 0))
      = (if c then get_activation_flags a else 0) := by
  split
  · exact inst_get_flags_INST_COMPUTE _ (get_activation_flags_lt a)
  · exact inst_get_flags_INST_COMPUTE _ (by norm_num)

theorem inst_get_opcode_INST_COMPUTE_zero :
    inst_get_opcode (INST_COMPUTE 0) = OP_COMPUTE :=
  inst_get_opcode_INST_COMPUTE 0 (by norm_num)

theorem inst_get_opcode_INST_COMPUTE_gaf (a : Nat) :
    inst_get_opcode (INST_COMPUTE (get_activation_flags a)) = OP_COMPUTE :=
  inst_get_opcode_INST_COMPUTE _ (get_activation_flags_lt a)

theorem list_range_two : List.range 2 = [0, 1] := by rfl

/-- C2: for a convolution layer with out_channels = 32 and in_channels = 32
against the 16x16 PE array, npu_rt_exec_conv builds exactly this 17-entry
sequence: clear-acc, then per output tile a DMA-load/wait pair, two
load-weight/compute pairs and a drain, with one intermediate clear-acc
between the two output tiles, terminated by halt. -/
theorem C2_conv_32_32_sequence (layer : LayerDesc)
    (hin : layer.input.c = 32) (hout : layer.output.c = 32) :
    (conv_insts layer).map inst_get_opcode =
      [OP_CLEAR_ACC,
       OP_DMA_LOAD_W, OP_WAIT_DMA,
       OP_LOAD_WEIGHT, OP_COMPUTE, OP_LOAD_WEIGHT, OP_COMPUTE,
       OP_DRAIN, OP_CLEAR_ACC,
       OP_DMA_LOAD_W, OP_WAIT_DMA,
       OP_LOAD_WEIGHT, OP_COMPUTE, OP_LOAD_WEIGHT, OP_COMPUTE,
       OP_DRAIN, OP_HALT] := by
  simp only [conv_insts, hin, hout, NPU_PE_COLS, NPU_PE_ROWS]
  norm_num
  rw [list_range_two]
  simp [inst_get_opcode_INST_CLEAR_ACC, inst_get_opcode_INST_HALT,
    inst_get_opcode_INST_WAIT_DMA, inst_get_opcode_INST_DMA_LOAD_W,
    inst_get_opcode_INST_LOAD_WEIGHT, inst_get_opcode_INST_DRAIN,
    inst_get_opcode_INST_COMPUTE_act, inst_get_opcode_INST_COMPUTE_zero,
    inst_get_opcode_INST_COMPUTE_gaf]

/-- A fixed all-zero tensor descriptor used to build concrete test layers. -/
def tensor0 : TensorDesc :=
  { addr := 0, n := 1, c := 1, h := 1, w := 1, dtype := 0, layout := 0,
    zero_point := 0, scale := 0 }

/-- A concrete convolution layer descriptor with the given channel counts,
1x1 kernel, ReLU activation, all other fields fixed. -/
def mkConvLayer (ic oc : Nat) : LayerDesc :=
  { type := LAYER_CONV2D, activation := ACT_RELU,
    input := { tensor0 with c := ic }, output := { tensor0 with c := oc },
    weight := tensor0, bias := tensor0,
    kernel_h := 1, kernel_w := 1, stride_h := 1, stride_w := 1,
    pad_top := 0, pad_bottom := 0, pad_left := 0, pad_right := 0,
    dilation_h := 1, dilation_w := 1, groups := 1,
    pool_h := 0, pool_w := 0, pool_stride_h := 0, pool_stride_w := 0,
    output_scale := 0, output_zero_point := 0, weight_zero_point := 0,
    shift_bits := 0, round_mode := 0 }

/-- Witness for C2 on a concrete 32-in/32-out convolution layer. -/
theorem C2_conv_32_32_sequence_witness :
    (mkConvLayer 32 32).input.c = 32 ∧ (mkConvLayer 32 32).output.c = 32 ∧
    (conv_insts (mkConvLayer 32 32)).map inst_get_opcode =
      [OP_CLEAR_ACC,
       OP_DMA_LOAD_W, OP_WAIT_DMA,
       OP_LOAD_WEIGHT, OP_COMPUTE, OP_LOAD_WEIGHT, OP_COMPUTE,
       OP_DRAIN, OP_CLEAR_ACC,
       OP_DMA_LOAD_W, OP_WAIT_DMA,
       OP_LOAD_WEIGHT, OP_COMPUTE, OP_LOAD_WEIGHT, OP_COMPUTE,
       OP_DRAIN, OP_HALT] :=
  ⟨rfl, rfl, C2_conv_32_32_sequence (mkConvLayer 32 32) rfl rfl⟩

/- ==========================================================================
   C3: activation-fusion flag placement
   ========================================================================== -/

/-- Projection selecting compute instructions and their flags field. -/
def computeSlot (i : Nat) : Option Nat :=
  if inst_get_opcode i = OP_COMPUTE then some (inst_get_flags i) else none

/-- The flags of the compute instructions of a sequence, in order. -/
def compute_flag_slots (l : List Nat) : List Nat := l.filterMap computeSlot

theorem computeSlot_INST_CLEAR_ACC : computeSlot INST_CLEAR_ACC = none := by
  simp [computeSlot, inst_get_opcode_INST_CLEAR_ACC, OP_CLEAR_ACC, OP_COMPUTE]

theorem computeSlot_INST_HALT : computeSlot INST_HALT = none := by
  simp [computeSlot, inst_get_opcode_INST_HALT, OP_HALT, OP_COMPUTE]

theorem computeSlot_INST_WAIT_DMA : computeSlot INST_WAIT_DMA = none := by
  simp [computeSlot, inst_get_opcode_INST_WAIT_DMA, OP_WAIT_DMA, OP_COMPUTE]

theorem computeSlot_INST_DMA_LOAD_W (s d l : Nat) :
    computeSlot (INST_DMA_LOAD_W s d l) = none := by
  simp [computeSlot, inst_get_opcode_INST_DMA_LOAD_W, OP_DMA_LOAD_W, OP_COMPUTE]

theorem computeSlot_INST_LOAD_WEIGHT (a c : Nat) :
    computeSlot (INST_LOAD_WEIGHT a c) = none := by
  simp [computeSlot, inst_get_opcode_INST_LOAD_WEIGHT, OP_LOAD_WEIGHT, OP_COMPUTE]

theorem computeSlot_INST_DRAIN (a : Nat) : computeSlot (INST_DRAIN a) = none := by
  simp [computeSlot, inst_get_opcode_INST_DRAIN, OP_DRAIN, OP_COMPUTE]

theorem computeSlot_INST_COMPUTE_act (c : Prop) [Decidable c] (a : Nat) :
    computeSlot (INST_COMPUTE (if c then get_activation_flags a else 0))
      = some (if c then get_activation_flags a else 0) := by
  simp [computeSlot, inst_get_opcode_INST_COMPUTE_act, inst_get_flags_INST_COMPUTE_act]

theorem inst_get_opcode_INST_COMPUTE_ite_flag (c : Prop) [Decidable c] :
    inst_get_opcode (INST_COMPUTE (if c then FLAG_RELU else 0)) = OP_COMPUTE := by
  split <;> exact inst_get_opcode_INST_COMPUTE _ (by norm_num [FLAG_RELU])

theorem inst_get_flags_INST_COMPUTE_ite_flag (c : Prop) [Decidable c] :
    inst_get_flags (INST_COMPUTE (if c then FLAG_RELU else 0))
      = (if c then FLAG_RELU else 0) := by
  split <;> exact inst_get_flags_INST_COMPUTE _ (by norm_num [FLAG_RELU])

theorem computeSlot_INST_COMPUTE_ite_flag (c : Prop) [Decidable c] :
    computeSlot (INST_COMPUTE (if c then FLAG_RELU else 0))
      = some (if c then FLAG_RELU else 0) := by
  simp [computeSlot, inst_get_opcode_INST_COMPUTE_ite_flag,
    inst_get_flags_INST_COMPUTE_ite_flag]

theorem flatMap_singleton_map {α β : Type} (l : List α) (f : α → β) :
    (l.flatMap fun a => [f a]) = l.map f := by
  induction l with
  | nil => simp
  | cons x xs ih => simp [ih]

theorem computeSlot_ite_clear (c : Prop) [Decidable c] :
    (if c then [INST_CLEAR_ACC] else []).filterMap computeSlot = [] := by
  split <;> simp [computeSlot_INST_CLEAR_ACC]

/-- When the layer activation is ReLU or ReLU6, the fused flag byte is
FLAG_RELU. -/
theorem get_activation_flags_relu (a : Nat)
    (h : a = ACT_RELU ∨ a = ACT_RELU6) : get_activation_flags a = FLAG_RELU := by
  rcases h with h | h <;> simp [get_activation_flags, h, ACT_RELU, ACT_RELU6]

/-- C3: for a convolution layer whose activation is ReLU or ReLU6, the
compute instructions of the sequence built by npu_rt_exec_conv carry, in
order and per output-channel tile, flags 0 on every input-channel tile
except the last, which carries FLAG_RELU. -/
theorem C3_relu_flag_on_last_ic_tile (layer : LayerDesc)
    (hact : layer.activation = ACT_RELU ∨ layer.activation = ACT_RELU6) :
    compute_flag_slots (conv_insts layer) =
      (List.range ((layer.output.c + NPU_PE_COLS - 1) / NPU_PE_COLS)).flatMap
        (fun _ => (List.range ((layer.input.c + NPU_PE_ROWS - 1) / NPU_PE_ROWS)).map
          (fun ic_t =>
            if ic_t = (layer.input.c + NPU_PE_ROWS - 1) / NPU_PE_ROWS - 1
            then FLAG_RELU else 0)) := by
  have hrelu := get_activation_flags_relu layer.activation hact
  simp only [compute_flag_slots, conv_insts]
  simp [List.filterMap_flatMap, List.filterMap_append,
    computeSlot_INST_CLEAR_ACC, computeSlot_INST_HALT, computeSlot_INST_WAIT_DMA,
    computeSlot_INST_DMA_LOAD_W, computeSlot_INST_LOAD_WEIGHT,
    computeSlot_INST_DRAIN, computeSlot_INST_COMPUTE_act, computeSlot_ite_clear,
    computeSlot_INST_COMPUTE_ite_flag, flatMap_singleton_map, hrelu]

/-- Witness for C3 on a concrete ReLU layer with 20 input and 16 output
channels (two input-channel tiles, one output-channel tile). -/
theorem C3_relu_flag_on_last_ic_tile_witness :
    ((mkConvLayer 20 16).activation = ACT_RELU ∨
     (mkConvLayer 20 16).activation = ACT_RELU6) ∧
    compute_flag_slots (conv_insts (mkConvLayer 20 16)) =
      (List.range (((mkConvLayer 20 16).output.c + NPU_PE_COLS - 1) / NPU_PE_COLS)).flatMap
        (fun _ => (List.range (((mkConvLayer 20 16).input.c + NPU_PE_ROWS - 1) / NPU_PE_ROWS)).map
          (fun ic_t =>
            if ic_t = ((mkConvLayer 20 16).input.c + NPU_PE_ROWS - 1) / NPU_PE_ROWS - 1
            then FLAG_RELU else 0)) :=
  ⟨Or.inl rfl, C3_relu_flag_on_last_ic_tile (mkConvLayer 20 16) (Or.inl rfl)⟩

/- ==========================================================================
   Length of the emitted convolution sequence
   ========================================================================== -/

theorem sum_tile_lengths (n A : Nat) :
    ((List.range n).map (fun t => A + if t < n - 1 then 1 else 0)).sum
      = n * A + (n - 1) := by
  cases n with
  | zero => simp
  | succ m =>
    rw [List.range_succ, List.map_append, List.sum_append]
    have h1 : (List.range m).map (fun t => A + if t < m + 1 - 1 then 1 else 0)
        = (List.range m).map (fun _ => A + 1) :=
      List.map_congr_left (fun t ht => by
        have ht' : t < m := List.mem_range.mp ht
        simp [ht'])
    rw [h1, List.map_const']
    simp [List.sum_replicate, smul_eq_mul]
    ring

/-- The number of instructions npu_rt_exec_conv writes into inst_buf:
one initial clear-accumulator, per output-channel tile a DMA-load/wait
pair, two instructions per input-channel tile, one drain, an intermediate
clear-accumulator after every tile but the last, and one halt. -/
theorem length_ite_list {a : Type} (c : Prop) [Decidable c] (x y : List a) :
    (if c then x else y).length = if c then x.length else y.length :=
  apply_ite List.length c x y

theorem conv_insts_length (layer : LayerDesc) :
    (conv_insts layer).length =
      2 + ((layer.output.c + NPU_PE_COLS - 1) / NPU_PE_COLS)
            * (3 + 2 * ((layer.input.c + NPU_PE_ROWS - 1) / NPU_PE_ROWS))
        + (((layer.output.c + NPU_PE_COLS - 1) / NPU_PE_COLS) - 1) := by
  unfold conv_insts
  simp only [List.length_cons, List.length_append, List.length_flatMap]
  simp only [Function.comp_def, List.length_cons, List.length_append,
    List.length_flatMap, List.length_nil, List.map_const', List.sum_replicate,
    List.length_range, smul_eq_mul, length_ite_list]
  generalize (layer.input.c + NPU_PE_ROWS - 1) / NPU_PE_ROWS = m
  generalize (layer.output.c + NPU_PE_COLS - 1) / NPU_PE_COLS = n
  rw [List.map_congr_left
    (g := fun t => (3 + 2 * m) + if t < n - 1 then 1 else 0)
    (fun t ht => by
      show _ = (3 + 2 * m) + if t < n - 1 then 1 else 0
      split <;> omega)]
  rw [sum_tile_lengths]
  generalize n * (3 + 2 * m) = B
  omega

/-- C4: npu_rt_exec_conv has a 256-entry inst_buf and no bound check.
For a 512-in/512-out convolution it emits 2177 instructions, past the end
of the buffer, and no error path exists before the writes. -/
theorem C4_conv_inst_buffer_overflow :
    (conv_insts (mkConvLayer 512 512)).length = 2177 ∧
    256 < (conv_insts (mkConvLayer 512 512)).length := by
  have h : (conv_insts (mkConvLayer 512 512)).length = 2177 := by
    rw [conv_insts_length]
    norm_num [mkConvLayer, tensor0, NPU_PE_COLS, NPU_PE_ROWS]
  exact ⟨h, by omega⟩

/- ==========================================================================
   Firmware runtime state (npu_runtime_fw.c)

   g_initialized, g_config and g_ctx are bundled into one explicit state
   record together with the register block and the device buffers.
   ========================================================================== -/

def NPU_INST_BUF_BASE : Nat := 0x40100000
def NPU_WEIGHT_BUF_BASE : Nat := 0x40200000
def NPU_ACT_BUF_BASE : Nat := 0x40300000

def MODEL_MAGIC : Nat := 0x4E505545
def MODEL_VERSION : Nat := 0x0100

/-- sizeof(model_header_t): nine fixed-width header fields, 32 bytes. -/
def MODEL_HEADER_SIZE : Nat := 32

/-- perf_stats_t.  The two C float fields are modelled over the rationals. -/
structure PerfStats where
  total_cycles : Nat
  compute_cycles : Nat
  dma_cycles : Nat
  stall_cycles : Nat
  mac_ops : Nat
  layers_executed : Nat
  dma_transfers : Nat
  pe_utilization : Rat
  memory_bandwidth : Rat
deriving DecidableEq, Repr

/-- fw_context_t (callback pointers omitted; no claim mentions them). -/
structure FwCtx where
  state : Nat
  last_error : FwStatus
  inst_ptr : Nat
  inst_count : Nat
  loop_count : Nat
  loop_start : Nat
  weight_ptr : Nat
  act_in_ptr : Nat
  act_out_ptr : Nat
  current_layer : Nat
  total_layers : Nat
  perf : PerfStats
deriving DecidableEq, Repr

/-- runtime_config_t. -/
structure RuntimeConfig where
  inst_buf_addr : Nat
  inst_buf_size : Nat
  weight_buf_addr : Nat
  weight_buf_size : Nat
  act_buf_addr : Nat
  act_buf_size : Nat
  enable_irq : Bool
  enable_perf : Bool
deriving DecidableEq, Repr

/-- The whole firmware-visible machine state: the three C globals plus the
register block and the device-side instruction/weight memories. -/
structure FwState where
  initialized : Bool
  config : RuntimeConfig
  ctx : FwCtx
  regs : Nat → Nat
  instBufMem : Nat → Nat
  weightBufMem : Nat → Int
  actBufMem : Nat → Int

/-- REG_WRITE: registers are 32 bits wide. -/
def REG_WRITE (st : FwState) (addr v : Nat) : FwState :=
  { st with regs := fun a => if a = addr then U32 v else st.regs a }

/-- REG_READ. -/
def REG_READ (st : FwState) (addr : Nat) : Nat := U32 (st.regs addr)

/-- REG_SET: read-modify-write or. -/
def REG_SET (st : FwState) (addr mask : Nat) : FwState :=
  REG_WRITE st addr (REG_READ st addr ||| mask)

/-- dma_desc_t. -/
structure DmaDesc where
  src_addr : Nat
  dst_addr : Nat
  length : Nat
  src_stride : Nat
  dst_stride : Nat
  width : Nat
  height : Nat
  channel : Nat
  flags : Nat
deriving DecidableEq, Repr

/-- Signed 32-bit value as the uint32 bit pattern written to a register. -/
def I32toU32 (x : Int) : Nat := (x % 2 ^ 32).toNat

/- ==========================================================================
   Polling loops.  REG_READ(REG_STATUS) (resp. REG_DMA_STATUS) returns a
   fresh hardware value on every iteration; the successive values are
   abstracted as trace k for poll index k.  The elapsed counter is a
   uint32_t incremented by 10 per poll, so elapsed = (10 * k) mod 2^32.
   fuel bounds the number of modelled iterations; none = still spinning.
   ========================================================================== -/

/-- wait_status (npu_runtime_fw.c lines 33-56). -/
def wait_status (st : FwState) (trace : Nat → Nat) (mask expected timeout_us : Nat) :
    Nat → Nat → Option (FwStatus × FwState)
  | fuel, k =>
    if U32 (10 * k) < timeout_us ∨ timeout_us = 0 then
      let status := trace k
      if status &&& mask = expected then some (FW_OK, st)
      else if status &&& STATUS_ERROR ≠ 0 then
        some (FW_ERROR_HW_FAULT,
          { st with ctx := { st.ctx with
              last_error := FW_ERROR_HW_FAULT, state := NPU_STATE_ERROR } })
      else
        match fuel with
        | 0 => none
        | fuel' + 1 => wait_status st trace mask expected timeout_us fuel' (k + 1)
    else some (FW_ERROR_TIMEOUT, st)

/-- npu_rt_dma_wait (npu_runtime_fw.c lines 402-423). -/
def npu_rt_dma_wait (timeout_us : Nat) (dmaTrace : Nat → Nat) :
    Nat → Nat → Option FwStatus
  | fuel, k =>
    if U32 (10 * k) < timeout_us ∨ timeout_us = 0 then
      let status := dmaTrace k
      if status &&& DMA_STATUS_DONE ≠ 0 then some FW_OK
      else if status &&& DMA_STATUS_ERROR ≠ 0 then some FW_ERROR_DMA
      else
        match fuel with
        | 0 => none
        | fuel' + 1 => npu_rt_dma_wait timeout_us dmaTrace fuel' (k + 1)
    else some FW_ERROR_TIMEOUT

/-- npu_rt_dma_is_busy, on the first DMA status read of the call. -/
def npu_rt_dma_is_busy (dmaTrace : Nat → Nat) : Bool :=
  dmaTrace 0 &&& DMA_STATUS_BUSY ≠ 0

/-- The straight-line register-programming tail of npu_rt_dma_start
(lines 380-399). -/
def dma_start_program (desc : DmaDesc) (st : FwState) : FwStatus × FwState :=
  let st1 := REG_WRITE st REG_DMA_SRC desc.src_addr
  let st2 := REG_WRITE st1 REG_DMA_DST desc.dst_addr
  let st3 := REG_WRITE st2 REG_DMA_LEN desc.length
  let st4 :=
    if desc.flags &&& DMA_FLAG_2D ≠ 0 then
      REG_WRITE (REG_WRITE st3 REG_DMA_SRC_STRIDE desc.src_stride)
        REG_DMA_DST_STRIDE desc.dst_stride
    else st3
  let ctrl0 := DMA_CTRL_START ||| (desc.channel <<< DMA_CTRL_CH_SEL_SHIFT)
  let ctrl1 := if desc.flags &&& DMA_FLAG_2D ≠ 0 then ctrl0 ||| DMA_CTRL_2D_MODE else ctrl0
  let ctrl2 := if desc.flags &&& DMA_FLAG_IRQ ≠ 0 then ctrl1 ||| DMA_CTRL_IRQ_EN else ctrl1
  let st5 := REG_WRITE st4 REG_DMA_CTRL ctrl2
  (FW_OK, { st5 with ctx := { st5.ctx with perf :=
    { st5.ctx.perf with dma_transfers := st5.ctx.perf.dma_transfers + 1 } } })

/-- npu_rt_dma_start (lines 370-400).  If the engine is busy it first
waits with a 100 ms timeout; the auto-wait polls the reads after the
busy probe. -/
def npu_rt_dma_start (desc : DmaDesc) (st : FwState) (dmaTrace : Nat → Nat)
    (fuel : Nat) : Option (FwStatus × FwState) :=
  if npu_rt_dma_is_busy dmaTrace then
    match npu_rt_dma_wait 100000 (fun k => dmaTrace (k + 1)) fuel 0 with
    | none => none
    | some s => if s ≠ FW_OK then some (s, st) else some (dma_start_program desc st)
  else some (dma_start_program desc st)

/-- update_perf_stats (lines 58-77).  compute_cycles is uint64
subtraction (wrapping); the float division is modelled exactly over Rat.
Note the function leaves pe_utilization untouched when the cycle counter
reads zero. -/
def update_perf_stats (st : FwState) : PerfStats :=
  let p0 := st.ctx.perf
  let total := (REG_READ st REG_PERF_CYCLES_HI) <<< 32 ||| REG_READ st REG_PERF_CYCLES_LO
  let mac := (REG_READ st REG_PERF_MAC_HI) <<< 32 ||| REG_READ st REG_PERF_MAC_LO
  let p1 := { p0 with
    total_cycles := total,
    mac_ops := mac,
    stall_cycles := REG_READ st REG_PERF_STALL_CNT,
    layers_executed := REG_READ st REG_PERF_INST_CNT }
  if p1.total_cycles > 0 then
    let compute := (2 ^ 64 + p1.total_cycles - p1.stall_cycles) % 2 ^ 64
    { p1 with
      compute_cycles := compute,
      pe_utilization := (compute : Rat) / (p1.total_cycles : Rat) * 100 }
  else p1

/-- npu_rt_load_instructions (lines 182-202).  The null-pointer case is
not modelled; count is the length of the given list. -/
def npu_rt_load_instructions (instructions : List Nat) (st : FwState) :
    FwStatus × FwState :=
  if !st.initialized then (FW_ERROR_NOT_READY, st)
  else if instructions.length = 0 then (FW_ERROR_INVALID_PARAM, st)
  else if instructions.length > NPU_INST_BUF_ENTRIES then (FW_ERROR_OVERFLOW, st)
  else
    let st1 := { st with instBufMem := fun i =>
      if i < instructions.length then instructions.getD i 0 else st.instBufMem i }
    let st2 := REG_WRITE st1 REG_INST_SIZE instructions.length
    let st3 := REG_WRITE st2 REG_INST_PTR 0
    (FW_OK, { st3 with ctx := { st3.ctx with
        inst_count := instructions.length, inst_ptr := 0 } })

/-- npu_rt_load_weights (lines 204-236).  weights_addr is the host
address of the source buffer (the value the C casts into the DMA source
register).  The hardware copy performed by a successful DMA transfer is
reflected into weightBufMem. -/
def npu_rt_load_weights (weights : List Int) (weights_addr size offset : Nat)
    (st : FwState) (dmaTrace : Nat → Nat) (fuel : Nat) :
    Option (FwStatus × FwState) :=
  if !st.initialized then some (FW_ERROR_NOT_READY, st)
  else if size = 0 then some (FW_ERROR_INVALID_PARAM, st)
  else if U32 (offset + size) > st.config.weight_buf_size then some (FW_ERROR_OVERFLOW, st)
  else if size > 1024 then
    let desc : DmaDesc :=
      { src_addr := weights_addr, dst_addr := NPU_WEIGHT_BUF_BASE + offset,
        length := size, src_stride := 0, dst_stride := 0, width := 0, height := 0,
        channel := DMA_CH_WEIGHT, flags := 0 }
    match npu_rt_dma_start desc st dmaTrace fuel with
    | none => none
    | some (s, st1) =>
      if s ≠ FW_OK then some (s, st1)
      else
        match npu_rt_dma_wait 1000000 dmaTrace fuel 0 with
        | none => none
        | some s2 =>
          if s2 = FW_OK then
            some (FW_OK, { st1 with weightBufMem := (fun i =>
              if offset ≤ i ∧ i < offset + size then weights.getD (i - offset) 0
              else st1.weightBufMem i) })
          else some (s2, st1)
  else
    let st1 := { st with weightBufMem := fun i =>
      if offset ≤ i ∧ i < offset + size then weights.getD (i - offset) 0
      else st.weightBufMem i }
    some (FW_OK, REG_WRITE st1 REG_WEIGHT_SIZE size)

/-- npu_rt_load_input (npu_runtime_fw.c lines 238-262).  input_addr is
the host address of the source buffer; the transfer always goes through
the DMA engine and the activation-input size register is written only
after the DMA completes.  The hardware copy of a successful transfer is
reflected into actBufMem. -/
def npu_rt_load_input (input : List Int) (input_addr size : Nat)
    (st : FwState) (dmaTrace : Nat → Nat) (fuel : Nat) :
    Option (FwStatus × FwState) :=
  if !st.initialized then some (FW_ERROR_NOT_READY, st)
  else if size = 0 then some (FW_ERROR_INVALID_PARAM, st)
  else if size > st.config.act_buf_size / 2 then some (FW_ERROR_OVERFLOW, st)
  else
    let desc : DmaDesc :=
      { src_addr := input_addr, dst_addr := NPU_ACT_BUF_BASE, length := size,
        src_stride := 0, dst_stride := 0, width := 0, height := 0,
        channel := DMA_CH_ACT_IN, flags := 0 }
    match npu_rt_dma_start desc st dmaTrace fuel with
    | none => none
    | some (s, st1) =>
      if s ≠ FW_OK then some (s, st1)
      else
        match npu_rt_dma_wait 1000000 dmaTrace fuel 0 with
        | none => none
        | some s2 =>
          if s2 ≠ FW_OK then some (s2, st1)
          else
            let st2 := { st1 with actBufMem := (fun i =>
              if i < size then input.getD i 0 else st1.actBufMem i) }
            some (FW_OK, REG_WRITE st2 REG_ACT_IN_SIZE size)

/-- npu_rt_load_model (lines 144-180).  model_addr is the host address of
the model blob; the header fields and payloads are the parsed view of the
bytes at that address. -/
structure ModelData where
  magic : Nat
  version : Nat
  num_layers : Nat
  weight_size : Nat
  inst_count : Nat
  input_size : Nat
  output_size : Nat
  workspace_size : Nat
  checksum : Nat
  instructions : List Nat
  weights : List Int
deriving DecidableEq, Repr

def npu_rt_load_model (m : ModelData) (model_addr model_size : Nat)
    (st : FwState) (dmaTrace : Nat → Nat) (fuel : Nat) :
    Option (FwStatus × FwState) :=
  if !st.initialized then some (FW_ERROR_NOT_READY, st)
  else if model_size < MODEL_HEADER_SIZE then some (FW_ERROR_INVALID_PARAM, st)
  else if m.magic ≠ MODEL_MAGIC then some (FW_ERROR_INVALID_PARAM, st)
  else if m.version > MODEL_VERSION then some (FW_ERROR_INVALID_PARAM, st)
  else
    let st1 := { st with ctx := { st.ctx with
        total_layers := m.num_layers, inst_count := m.inst_count } }
    match npu_rt_load_instructions (m.instructions.take m.inst_count) st1 with
    | (s, st2) =>
      if s ≠ FW_OK then some (s, st2)
      else
        npu_rt_load_weights m.weights
          (model_addr + MODEL_HEADER_SIZE + m.inst_count * 8)
          m.weight_size 0 st2 dmaTrace fuel

/-- npu_rt_start (lines 268-286). -/
def npu_rt_start (st : FwState) : FwStatus × FwState :=
  if !st.initialized then (FW_ERROR_NOT_READY, st)
  else if st.ctx.state = NPU_STATE_RUNNING then (FW_ERROR_BUSY, st)
  else
    let st1 := REG_WRITE st REG_INST_PTR 0
    let st2 := { st1 with ctx := { st1.ctx with inst_ptr := 0, current_layer := 0 } }
    let st3 := REG_WRITE st2 REG_IRQ_STATUS 0xFFFFFFFF
    let st4 := { st3 with ctx := { st3.ctx with state := NPU_STATE_RUNNING } }
    (FW_OK, REG_SET st4 REG_CTRL CTRL_START)

/-- npu_rt_wait (lines 304-316). -/
def npu_rt_wait (timeout_us : Nat) (st : FwState) (trace : Nat → Nat)
    (fuel : Nat) : Option (FwStatus × FwState) :=
  if !st.initialized then some (FW_ERROR_NOT_READY, st)
  else
    match wait_status st trace (STATUS_DONE ||| STATUS_ERROR) STATUS_DONE timeout_us fuel 0 with
    | none => none
    | some (s, st1) =>
      if s = FW_OK then
        some (FW_OK, { st1 with ctx := { st1.ctx with
            state := NPU_STATE_DONE, perf := update_perf_stats st1 } })
      else some (s, st1)

/-- configure_layer_regs (npu_layer_exec.c lines 16-33). -/
def configure_layer_regs (layer : LayerDesc) (st : FwState) : FwState :=
  let st1 := REG_WRITE st REG_LAYER_TYPE layer.type
  let st2 := REG_WRITE st1 REG_LAYER_IN_CH layer.input.c
  let st3 := REG_WRITE st2 REG_LAYER_OUT_CH layer.output.c
  let st4 := REG_WRITE st3 REG_LAYER_IN_H layer.input.h
  let st5 := REG_WRITE st4 REG_LAYER_IN_W layer.input.w
  let st6 := REG_WRITE st5 REG_LAYER_OUT_H layer.output.h
  let st7 := REG_WRITE st6 REG_LAYER_OUT_W layer.output.w
  let st8 := REG_WRITE st7 REG_LAYER_KERNEL (layer.kernel_h <<< 8 ||| layer.kernel_w)
  let st9 := REG_WRITE st8 REG_LAYER_STRIDE (layer.stride_h <<< 8 ||| layer.stride_w)
  let st10 := REG_WRITE st9 REG_LAYER_PADDING
    (layer.pad_top <<< 24 ||| layer.pad_bottom <<< 16 |||
     layer.pad_left <<< 8 ||| layer.pad_right)
  let st11 := REG_WRITE st10 REG_LAYER_ACT_TYPE layer.activation
  let st12 := REG_WRITE st11 REG_LAYER_QUANT_SCALE (I32toU32 layer.output_scale)
  REG_WRITE st12 REG_LAYER_QUANT_ZERO (I32toU32 layer.output_zero_point)

/-- npu_rt_exec_conv (npu_layer_exec.c lines 69-147): configure the layer
registers, build the tiled sequence, load it, start, wait indefinitely. -/
def npu_rt_exec_conv (layer : LayerDesc) (st : FwState) (trace : Nat → Nat)
    (fuel : Nat) : Option (FwStatus × FwState) :=
  let st1 := configure_layer_regs layer st
  match npu_rt_load_instructions (conv_insts layer) st1 with
  | (s, st2) =>
    if s ≠ FW_OK then some (s, st2)
    else
      match npu_rt_start st2 with
      | (s2, st3) =>
        if s2 ≠ FW_OK then some (s2, st3)
        else npu_rt_wait 0 st3 trace fuel

/-- The fc_as_conv descriptor built by npu_rt_exec_fc (lines 154-170):
struct copy, then the field assignments in source order.  The C statement
fc_as_conv.input.c = layer->input.c * layer->input.h * layer->input.w
stores an int product into a uint16_t field, hence the U16 wrap. -/
def fc_as_conv (layer : LayerDesc) : LayerDesc :=
  { layer with
    type := LAYER_CONV2D,
    kernel_h := 1, kernel_w := 1, stride_h := 1, stride_w := 1,
    pad_top := 0, pad_bottom := 0, pad_left := 0, pad_right := 0,
    input := { layer.input with
                 h := 1, w := 1,
                 c := U16 (layer.input.c * layer.input.h * layer.input.w) },
    output := { layer.output with h := 1, w := 1 } }

/-- npu_rt_exec_fc (lines 149-173). -/
def npu_rt_exec_fc (layer : LayerDesc) (st : FwState) (trace : Nat → Nat)
    (fuel : Nat) : Option (FwStatus × FwState) :=
  npu_rt_exec_conv (fc_as_conv layer) st trace fuel

/-- Modelled from the spec (claim C9 wording): the transformed descriptor
in which the type is conv2d, kernel and stride are 1x1, all four paddings
are 0, the input channel count equals the original input channel x height
x width (no truncation), and the input and output spatial dimensions are
1x1. -/
def fc_as_conv_claim (layer : LayerDesc) : LayerDesc :=
  { layer with
    type := LAYER_CONV2D,
    kernel_h := 1, kernel_w := 1, stride_h := 1, stride_w := 1,
    pad_top := 0, pad_bottom := 0, pad_left := 0, pad_right := 0,
    input := { layer.input with
                 c := layer.input.c * layer.input.h * layer.input.w,
                 h := 1, w := 1 },
    output := { layer.output with h := 1, w := 1 } }

/-- The spec transform amended with the uint16 store the C performs: the
effective input channel count is the flattened product reduced mod 2^16. -/
def fc_as_conv_spec_u16 (layer : LayerDesc) : LayerDesc :=
  { layer with
    type := LAYER_CONV2D,
    kernel_h := 1, kernel_w := 1, stride_h := 1, stride_w := 1,
    pad_top := 0, pad_bottom := 0, pad_left := 0, pad_right := 0,
    input := { layer.input with
                 c := U16 (layer.input.c * layer.input.h * layer.input.w),
                 h := 1, w := 1 },
    output := { layer.output with h := 1, w := 1 } }

/- ==========================================================================
   Host driver (npu_driver.c / npu_driver.h), in its own namespace.
   Register offsets are relative to the configured base address; memory
   and registers are modelled per offset.
   ========================================================================== -/

namespace Driver

def NPU_REG_CTRL : Nat := 0x000
def NPU_REG_STATUS : Nat := 0x004
def NPU_REG_IRQ_ENABLE : Nat := 0x008
def NPU_REG_IRQ_STATUS : Nat := 0x00C
def NPU_REG_VERSION : Nat := 0x010
def NPU_REG_INST_BASE : Nat := 0x100
def NPU_REG_INST_SIZE : Nat := 0x104
def NPU_REG_INST_PTR : Nat := 0x108
def NPU_REG_WEIGHT_BASE : Nat := 0x200
def NPU_REG_WEIGHT_SIZE : Nat := 0x204
def NPU_REG_ACT_IN_BASE : Nat := 0x300
def NPU_REG_ACT_IN_SIZE : Nat := 0x304
def NPU_REG_ACT_OUT_BASE : Nat := 0x308
def NPU_REG_ACT_OUT_SIZE : Nat := 0x30C
def NPU_REG_PERF_CYCLES : Nat := 0x500
def NPU_REG_PERF_INST : Nat := 0x504
def NPU_REG_PERF_MAC : Nat := 0x508
def NPU_REG_PERF_STALL : Nat := 0x50C

def NPU_CTRL_ENABLE : Nat := 1
def NPU_CTRL_START : Nat := 2
def NPU_CTRL_RESET : Nat := 4
def NPU_CTRL_IRQ_EN : Nat := 8

def NPU_STATUS_IDLE : Nat := 1
def NPU_STATUS_RUNNING : Nat := 2
def NPU_STATUS_DONE : Nat := 4
def NPU_STATUS_ERROR : Nat := 8

def NPU_IRQ_DONE : Nat := 1
def NPU_IRQ_ERROR : Nat := 2

inductive NpuStatus where
  | NPU_OK
  | NPU_ERROR_INVALID_PARAM
  | NPU_ERROR_NOT_INITIALIZED
  | NPU_ERROR_BUSY
  | NPU_ERROR_TIMEOUT
  | NPU_ERROR_HW_ERROR
  | NPU_ERROR_NO_MEMORY
  | NPU_ERROR_INVALID_MODEL
deriving DecidableEq, Repr

open NpuStatus

def NPU_STATE_UNINITIALIZED : Nat := 0
def NPU_STATE_IDLE : Nat := 1
def NPU_STATE_RUNNING : Nat := 2
def NPU_STATE_ERROR : Nat := 3

/-- npu_config_t. -/
structure NpuConfig where
  base_addr : Nat
  inst_buf_addr : Nat
  inst_buf_size : Nat
  weight_buf_addr : Nat
  weight_buf_size : Nat
  act_buf_addr : Nat
  act_buf_size : Nat
deriving DecidableEq, Repr

/-- npu_perf_stats_t; the float utilization is modelled over Rat. -/
structure NpuPerfStats where
  total_cycles : Nat
  instructions_executed : Nat
  mac_operations : Nat
  stall_cycles : Nat
  utilization : Rat
deriving DecidableEq, Repr

/-- struct npu_context together with the register block and the host
buffers the driver writes through config addresses. -/
structure NpuContext where
  config : NpuConfig
  state : Nat
  regs : Nat → Nat
  instBufMem : Nat → Nat
  weightBufMem : Nat → Int
  actBufMem : Nat → Int
  perf_stats : NpuPerfStats
  debug_enabled : Bool

def reg_write (ctx : NpuContext) (offset v : Nat) : NpuContext :=
  { ctx with regs := fun a => if a = offset then U32 v else ctx.regs a }

def reg_read (ctx : NpuContext) (offset : Nat) : Nat := U32 (ctx.regs offset)

/-- wait_for_idle (npu_driver.c lines 76-103): polls every 10 us, error
first, then done, then idle; timeout_ms = 0 waits forever.  Both the
deadline timeout_ms * 1000 and the elapsed counter are uint32_t, so both
wrap mod 2^32. -/
def wait_for_idle (ctx : NpuContext) (trace : Nat → Nat) (timeout_ms : Nat) :
    Nat → Nat → Option (NpuStatus × NpuContext)
  | fuel, k =>
    if U32 (10 * k) < U32 (timeout_ms * 1000) ∨ timeout_ms = 0 then
      let status := trace k
      if status &&& NPU_STATUS_ERROR ≠ 0 then
        some (NPU_ERROR_HW_ERROR, { ctx with state := NPU_STATE_ERROR })
      else if status &&& NPU_STATUS_DONE ≠ 0 then
        some (NPU_OK, { ctx with state := NPU_STATE_IDLE })
      else if status &&& NPU_STATUS_IDLE ≠ 0 then
        some (NPU_OK, { ctx with state := NPU_STATE_IDLE })
      else
        match fuel with
        | 0 => none
        | fuel' + 1 => wait_for_idle ctx trace timeout_ms fuel' (k + 1)
    else some (NPU_ERROR_TIMEOUT, ctx)

/-- npu_load_instructions (npu_driver.c lines 192-220).  The byte size
is computed in uint32_t (size = num_instructions * 8), so it wraps. -/
def npu_load_instructions (ctx : NpuContext) (instructions : List Nat) :
    NpuStatus × NpuContext :=
  if instructions.length = 0 then (NPU_ERROR_INVALID_PARAM, ctx)
  else if ctx.state = NPU_STATE_RUNNING then (NPU_ERROR_BUSY, ctx)
  else if U32 (instructions.length * 8) > ctx.config.inst_buf_size then
    (NPU_ERROR_NO_MEMORY, ctx)
  else
    let ctx1 := { ctx with instBufMem := (fun i =>
      if i < instructions.length then instructions.getD i 0 else ctx.instBufMem i) }
    let ctx2 := reg_write ctx1 NPU_REG_INST_BASE ctx.config.inst_buf_addr
    let ctx3 := reg_write ctx2 NPU_REG_INST_SIZE instructions.length
    (NPU_OK, reg_write ctx3 NPU_REG_INST_PTR 0)

/-- npu_load_weights (lines 222-245). -/
def npu_load_weights (ctx : NpuContext) (weights : List Int) (size : Nat) :
    NpuStatus × NpuContext :=
  if weights.length = 0 ∨ size = 0 then (NPU_ERROR_INVALID_PARAM, ctx)
  else if ctx.state = NPU_STATE_RUNNING then (NPU_ERROR_BUSY, ctx)
  else if size > ctx.config.weight_buf_size then (NPU_ERROR_NO_MEMORY, ctx)
  else
    let ctx1 := { ctx with weightBufMem := (fun i =>
      if i < size then weights.getD i 0 else ctx.weightBufMem i) }
    let ctx2 := reg_write ctx1 NPU_REG_WEIGHT_BASE ctx.config.weight_buf_addr
    (NPU_OK, reg_write ctx2 NPU_REG_WEIGHT_SIZE size)

/-- npu_load_input (lines 247-270). -/
def npu_load_input (ctx : NpuContext) (input : List Int) (size : Nat) :
    NpuStatus × NpuContext :=
  if input.length = 0 ∨ size = 0 then (NPU_ERROR_INVALID_PARAM, ctx)
  else if ctx.state = NPU_STATE_RUNNING then (NPU_ERROR_BUSY, ctx)
  else if size > ctx.config.act_buf_size then (NPU_ERROR_NO_MEMORY, ctx)
  else
    let ctx1 := { ctx with actBufMem := (fun i =>
      if i < size then input.getD i 0 else ctx.actBufMem i) }
    let ctx2 := reg_write ctx1 NPU_REG_ACT_IN_BASE ctx.config.act_buf_addr
    (NPU_OK, reg_write ctx2 NPU_REG_ACT_IN_SIZE size)

/-- npu_reset_perf_counters (lines 428-442). -/
def npu_reset_perf_counters (ctx : NpuContext) : NpuContext :=
  let ctx1 := reg_write ctx NPU_REG_PERF_CYCLES 0
  let ctx2 := reg_write ctx1 NPU_REG_PERF_INST 0
  let ctx3 := reg_write ctx2 NPU_REG_PERF_MAC 0
  let ctx4 := reg_write ctx3 NPU_REG_PERF_STALL 0
  { ctx4 with perf_stats :=
    { total_cycles := 0, instructions_executed := 0, mac_operations := 0,
      stall_cycles := 0, utilization := 0 } }

/-- The four post-run performance-counter register reads of npu_run;
these are live hardware counters, so their values are inputs of the
model rather than functions of earlier register writes. -/
structure PerfReads where
  cycles : Nat
  inst : Nat
  mac : Nat
  stall : Nat
deriving DecidableEq, Repr

/-- npu_run (lines 333-365): busy check, counter reset, start, wait,
counter read-back, guarded utilization computation. -/
def npu_run (ctx : NpuContext) (trace : Nat → Nat) (reads : PerfReads)
    (timeout_ms : Nat) (fuel : Nat) : Option (NpuStatus × NpuContext) :=
  if ctx.state = NPU_STATE_RUNNING then some (NPU_ERROR_BUSY, ctx)
  else
    let ctx1 := npu_reset_perf_counters ctx
    let ctx2 := { ctx1 with state := NPU_STATE_RUNNING }
    let ctx3 := reg_write ctx2 NPU_REG_CTRL (NPU_CTRL_ENABLE ||| NPU_CTRL_START)
    match wait_for_idle ctx3 trace timeout_ms fuel 0 with
    | none => none
    | some (s, ctx4) =>
      let p0 := { ctx4.perf_stats with
        total_cycles := U32 reads.cycles,
        instructions_executed := U32 reads.inst,
        mac_operations := U32 reads.mac,
        stall_cycles := U32 reads.stall }
      let p1 :=
        if p0.total_cycles > 0 then
          { p0 with utilization :=
              (((2 ^ 64 + p0.total_cycles - p0.stall_cycles) % 2 ^ 64 : Nat) : Rat)
                / (p0.total_cycles : Rat) * 100 }
        else p0
      some (s, { ctx4 with perf_stats := p1 })

end Driver

/- ==========================================================================
   Concrete states for counterexamples and witnesses
   ========================================================================== -/

def perf0 : PerfStats :=
  { total_cycles := 0, compute_cycles := 0, dma_cycles := 0, stall_cycles := 0,
    mac_ops := 0, layers_executed := 0, dma_transfers := 0,
    pe_utilization := 0, memory_bandwidth := 0 }

def fwCtx0 : FwCtx :=
  { state := NPU_STATE_IDLE, last_error := FW_OK, inst_ptr := 0, inst_count := 0,
    loop_count := 0, loop_start := 0, weight_ptr := 0, act_in_ptr := 0,
    act_out_ptr := 0, current_layer := 0, total_layers := 0, perf := perf0 }

def fwConfig0 : RuntimeConfig :=
  { inst_buf_addr := NPU_INST_BUF_BASE, inst_buf_size := 8192,
    weight_buf_addr := NPU_WEIGHT_BUF_BASE, weight_buf_size := 4096,
    act_buf_addr := NPU_ACT_BUF_BASE, act_buf_size := 4096,
    enable_irq := false, enable_perf := true }

/-- An initialized idle firmware state with a zeroed register block. -/
def fwSt0 : FwState :=
  { initialized := true, config := fwConfig0, ctx := fwCtx0,
    regs := fun _ => 0, instBufMem := fun _ => 0, weightBufMem := fun _ => 0,
    actBufMem := fun _ => 0 }

/-- The same state while execution is Running. -/
def fwStRunning : FwState :=
  { fwSt0 with ctx := { fwCtx0 with state := NPU_STATE_RUNNING } }

/- ==========================================================================
   C5: loads while Running
   ========================================================================== -/

/-- A DMA status trace that reads done (and not busy) on every poll. -/
def dmaDoneTrace : Nat → Nat := fun _ => DMA_STATUS_DONE

/-- C5 counterexample: with the firmware context initialized and Running,
none of the three firmware load functions fails with Busy:
npu_rt_load_instructions succeeds and writes the instruction-size
register, and npu_rt_load_weights and npu_rt_load_input succeed as well,
refuting the claim for the firmware-level load functions. -/
theorem C5_counterexample_fw_load_while_running :
    (npu_rt_load_instructions [INST_HALT] fwStRunning).1 = FW_OK ∧
    (npu_rt_load_instructions [INST_HALT] fwStRunning).1 ≠ FW_ERROR_BUSY ∧
    REG_READ (npu_rt_load_instructions [INST_HALT] fwStRunning).2 REG_INST_SIZE = 1 ∧
    REG_READ fwStRunning REG_INST_SIZE = 0 ∧
    (npu_rt_load_weights [1] 0 1 0 fwStRunning dmaDoneTrace 1).map Prod.fst
      = some FW_OK ∧
    (npu_rt_load_input [1] 0 1 fwStRunning dmaDoneTrace 1).map Prod.fst
      = some FW_OK := by
  refine ⟨rfl, by decide, ?_, rfl, ?_, ?_⟩ <;> rfl

/-- C5 amended: the driver-level npu_load_instructions, npu_load_weights
and npu_load_input fail with Busy and change nothing when the context
state is Running; the firmware-level npu_rt_load_instructions,
npu_rt_load_weights and npu_rt_load_input perform no execution-state
check and succeed even while Running (given otherwise valid arguments
and, where a DMA transfer is involved, a completing DMA engine). -/
theorem C5_amended_busy_checks :
    (∀ (ctx : Driver.NpuContext) (insts : List Nat),
      insts.length ≠ 0 → ctx.state = Driver.NPU_STATE_RUNNING →
      Driver.npu_load_instructions ctx insts = (Driver.NpuStatus.NPU_ERROR_BUSY, ctx)) ∧
    (∀ (ctx : Driver.NpuContext) (ws : List Int) (size : Nat),
      ws.length ≠ 0 → size ≠ 0 → ctx.state = Driver.NPU_STATE_RUNNING →
      Driver.npu_load_weights ctx ws size = (Driver.NpuStatus.NPU_ERROR_BUSY, ctx)) ∧
    (∀ (ctx : Driver.NpuContext) (inp : List Int) (size : Nat),
      inp.length ≠ 0 → size ≠ 0 → ctx.state = Driver.NPU_STATE_RUNNING →
      Driver.npu_load_input ctx inp size = (Driver.NpuStatus.NPU_ERROR_BUSY, ctx)) ∧
    (∀ (st : FwState) (insts : List Nat),
      st.initialized = true → st.ctx.state = NPU_STATE_RUNNING →
      insts.length ≠ 0 → insts.length ≤ NPU_INST_BUF_ENTRIES →
      (npu_rt_load_instructions insts st).1 = FW_OK) ∧
    (∀ (st : FwState) (ws : List Int) (waddr size offset : Nat)
        (dmaTrace : Nat → Nat) (fuel : Nat),
      st.initialized = true → st.ctx.state = NPU_STATE_RUNNING →
      size ≠ 0 → ¬ U32 (offset + size) > st.config.weight_buf_size →
      size ≤ 1024 →
      (npu_rt_load_weights ws waddr size offset st dmaTrace fuel).map Prod.fst
        = some FW_OK) ∧
    (∀ (st : FwState) (inp : List Int) (iaddr size : Nat)
        (dmaTrace : Nat → Nat) (fuel : Nat),
      st.initialized = true → st.ctx.state = NPU_STATE_RUNNING →
      size ≠ 0 → ¬ size > st.config.act_buf_size / 2 →
      dmaTrace 0 &&& DMA_STATUS_BUSY = 0 →
      dmaTrace 0 &&& DMA_STATUS_DONE ≠ 0 →
      (npu_rt_load_input inp iaddr size st dmaTrace fuel).map Prod.fst
        = some FW_OK) := by
  refine ⟨?_, ?_, ?_, ?_, ?_, ?_⟩
  · intro ctx insts h1 h2
    simp [Driver.npu_load_instructions, h1, h2]
  · intro ctx ws size h1 h2 h3
    simp [Driver.npu_load_weights, h1, h2, h3]
  · intro ctx inp size h1 h2 h3
    simp [Driver.npu_load_input, h1, h2, h3]
  · intro st insts h1 h2 h3 h4
    have h5 : ¬ insts.length > NPU_INST_BUF_ENTRIES := by omega
    simp [npu_rt_load_instructions, h1, h3, h5]
  · intro st ws waddr size offset dmaTrace fuel h1 h2 h3 h4 h5
    have h6 : ¬ size > 1024 := by omega
    simp [npu_rt_load_weights, h1, h3, h4, h6]
  · intro st inp iaddr size dmaTrace fuel h1 h2 h3 h4 h5 h6
    have hbusy : npu_rt_dma_is_busy dmaTrace = false := by
      simp [npu_rt_dma_is_busy, h5]
    have hwait : npu_rt_dma_wait 1000000 dmaTrace fuel 0 = some FW_OK := by
      have hc : U32 (10 * 0) < 1000000 ∨ (1000000 : Nat) = 0 := by
        left
        unfold U32
        omega
      cases fuel <;>
        · rw [npu_rt_dma_wait]
          rw [if_pos hc]
          simp [h6]
    rw [npu_rt_load_input.eq_def]
    simp only [h1, Bool.not_true, Bool.false_eq_true, if_false, h3, if_neg h4]
    rw [npu_rt_dma_start.eq_def, hbusy]
    simp [hwait, dma_start_program]

def drvPerf0 : Driver.NpuPerfStats :=
  { total_cycles := 0, instructions_executed := 0, mac_operations := 0,
    stall_cycles := 0, utilization := 0 }

def drvConfig0 : Driver.NpuConfig :=
  { base_addr := 0x40000000, inst_buf_addr := NPU_INST_BUF_BASE,
    inst_buf_size := 8192, weight_buf_addr := NPU_WEIGHT_BUF_BASE,
    weight_buf_size := 4096, act_buf_addr := NPU_ACT_BUF_BASE,
    act_buf_size := 4096 }

/-- A driver context in the Running state. -/
def drvRunning : Driver.NpuContext :=
  { config := drvConfig0, state := Driver.NPU_STATE_RUNNING,
    regs := fun _ => 0, instBufMem := fun _ => 0, weightBufMem := fun _ => 0,
    actBufMem := fun _ => 0, perf_stats := drvPerf0, debug_enabled := false }

/-- An idle driver context. -/
def drvIdle : Driver.NpuContext :=
  { drvRunning with state := Driver.NPU_STATE_IDLE }

/-- Witness for C5 amended on concrete Running contexts. -/
theorem C5_amended_busy_checks_witness :
    Driver.npu_load_instructions drvRunning [INST_HALT]
      = (Driver.NpuStatus.NPU_ERROR_BUSY, drvRunning) ∧
    Driver.npu_load_weights drvRunning [1] 1
      = (Driver.NpuStatus.NPU_ERROR_BUSY, drvRunning) ∧
    Driver.npu_load_input drvRunning [1] 1
      = (Driver.NpuStatus.NPU_ERROR_BUSY, drvRunning) ∧
    (npu_rt_load_instructions [INST_HALT] fwStRunning).1 = FW_OK ∧
    (npu_rt_load_weights [1] 0 1 0 fwStRunning dmaDoneTrace 1).map Prod.fst
      = some FW_OK ∧
    (npu_rt_load_input [1] 0 1 fwStRunning dmaDoneTrace 1).map Prod.fst
      = some FW_OK :=
  ⟨C5_amended_busy_checks.1 drvRunning [INST_HALT] (by decide) rfl,
   C5_amended_busy_checks.2.1 drvRunning [1] 1 (by decide) (by decide) rfl,
   C5_amended_busy_checks.2.2.1 drvRunning [1] 1 (by decide) (by decide) rfl,
   C5_amended_busy_checks.2.2.2.1 fwStRunning [INST_HALT] rfl rfl (by decide) (by decide),
   C5_amended_busy_checks.2.2.2.2.1 fwStRunning [1] 0 1 0 dmaDoneTrace 1
     rfl rfl (by decide) (by decide) (by decide),
   C5_amended_busy_checks.2.2.2.2.2 fwStRunning [1] 0 1 dmaDoneTrace 1
     rfl rfl (by decide) (by decide) (by decide) (by decide)⟩

/- ==========================================================================
   C6: oversize instruction loads rejected before any write
   ========================================================================== -/

/-- C6: the driver computes the byte size of an instruction load in
uint32_t (size = num_instructions * 8, npu_driver.c line 203), so at
num_instructions = 2^29 the size wraps to 0, the capacity check passes,
and the load proceeds to copy and write the instruction-buffer registers,
returning NPU_OK even though the count exceeds the configured capacity:
the claimed overflow rejection does not happen.  (The firmware-level
npu_rt_load_instructions, which compares the raw count against
NPU_INST_BUF_ENTRIES, does reject oversize loads; see
load_instructions_overflow.) -/
theorem C6_driver_size_wrap_bypass :
    (List.replicate (2 ^ 29) INST_NOP).length * 8 > drvIdle.config.inst_buf_size ∧
    (Driver.npu_load_instructions drvIdle (List.replicate (2 ^ 29) INST_NOP)).1
      = Driver.NpuStatus.NPU_OK ∧
    (Driver.npu_load_instructions drvIdle (List.replicate (2 ^ 29) INST_NOP)).1
      ≠ Driver.NpuStatus.NPU_ERROR_NO_MEMORY ∧
    Driver.reg_read
        (Driver.npu_load_instructions drvIdle (List.replicate (2 ^ 29) INST_NOP)).2
        Driver.NPU_REG_INST_SIZE = 2 ^ 29 := by
  generalize hg : List.replicate (2 ^ 29) INST_NOP = l
  have hlen : l.length = 2 ^ 29 := hg ▸ List.length_replicate (2 ^ 29) INST_NOP
  have hrun : drvIdle.state ≠ Driver.NPU_STATE_RUNNING := by decide
  have hcap : ¬ U32 (l.length * 8) > drvIdle.config.inst_buf_size := by
    rw [hlen]
    norm_num [U32, drvIdle, drvRunning, drvConfig0]
  have h0 : l.length ≠ 0 := by
    rw [hlen]
    norm_num
  refine ⟨?_, ?_, ?_, ?_⟩
  · rw [hlen]
    norm_num [drvIdle, drvRunning, drvConfig0]
  · simp [Driver.npu_load_instructions, hrun, hcap, h0]
  · simp [Driver.npu_load_instructions, hrun, hcap, h0]
  · simp only [Driver.npu_load_instructions, hrun, hcap, h0, if_neg, if_false]
    simp only [Driver.reg_read, Driver.reg_write]
    rw [if_neg (by decide : ¬ Driver.NPU_REG_INST_SIZE = Driver.NPU_REG_INST_PTR),
      if_pos trivial, hlen]
    unfold U32
    norm_num

/- ==========================================================================
   C7: wait / polling behaviour
   ========================================================================== -/

/-- If the status never shows the expected pattern and never shows the
error bit, a nonzero timeout whose deadline is reachable by the uint32
elapsed counter (timeout + 9 < 2^32) elapses after ceil(timeout/10) polls
and wait_status reports a timeout. -/
theorem wait_status_timeout (st : FwState) (trace : Nat → Nat)
    (mask expected timeout : Nat) (ht : timeout ≠ 0)
    (hbound : timeout + 9 < 2 ^ 32)
    (hne : ∀ j, trace j &&& mask ≠ expected)
    (herr : ∀ j, trace j &&& STATUS_ERROR = 0) :
    ∀ (fuel k : Nat), 10 * k ≤ timeout + 9 → timeout ≤ 10 * (k + fuel) →
      wait_status st trace mask expected timeout fuel k
        = some (FW_ERROR_TIMEOUT, st) := by
  intro fuel
  induction fuel with
  | zero =>
    intro k hk9 hk
    rw [wait_status]
    have hU : U32 (10 * k) = 10 * k := by
      unfold U32
      exact Nat.mod_eq_of_lt (by omega)
    have hc : ¬(U32 (10 * k) < timeout ∨ timeout = 0) := by
      rw [hU]
      omega
    simp [hc]
  | succ n ih =>
    intro k hk9 hk
    rw [wait_status]
    have hU : U32 (10 * k) = 10 * k := by
      unfold U32
      exact Nat.mod_eq_of_lt (by omega)
    by_cases hc : 10 * k < timeout
    · have hc' : U32 (10 * k) < timeout ∨ timeout = 0 := by
        rw [hU]
        exact Or.inl hc
      simp [hc', hne k, herr k]
      exact ih (k + 1) (by omega) (by omega)
    · have hc' : ¬(U32 (10 * k) < timeout ∨ timeout = 0) := by
        rw [hU]
        omega
      simp [hc']

/-- With timeout 0, wait_status never reports a timeout. -/
theorem wait_status_zero_no_timeout (st : FwState) (trace : Nat → Nat)
    (mask expected : Nat) :
    ∀ (fuel k : Nat) (st' : FwState),
      wait_status st trace mask expected 0 fuel k
        ≠ some (FW_ERROR_TIMEOUT, st') := by
  intro fuel
  induction fuel with
  | zero =>
    intro k st'
    rw [wait_status]
    simp only [or_true, if_true]
    split
    · simp
    · split
      · simp
      · simp
  | succ n ih =>
    intro k st'
    rw [wait_status]
    simp only [or_true, if_true]
    split
    · simp
    · split
      · simp
      · exact ih (k + 1) st'

/-- With timeout_us = 2^32 - 1, the uint32 elapsed counter only ever
holds even residues, so the deadline is never reached and wait_status
never reports a timeout: the loop spins forever unless done or error
appears. -/
theorem wait_status_maxu32_no_timeout (st : FwState) (trace : Nat → Nat)
    (mask expected : Nat) :
    ∀ (fuel k : Nat) (st' : FwState),
      wait_status st trace mask expected (2 ^ 32 - 1) fuel k
        ≠ some (FW_ERROR_TIMEOUT, st') := by
  intro fuel
  induction fuel with
  | zero =>
    intro k st'
    rw [wait_status]
    have hc : U32 (10 * k) < 2 ^ 32 - 1 ∨ (2 ^ 32 - 1 : Nat) = 0 := by
      left
      unfold U32
      omega
    rw [if_pos hc]
    dsimp only []
    split
    · simp
    · split
      · simp
      · simp
  | succ n ih =>
    intro k st'
    rw [wait_status]
    have hc : U32 (10 * k) < 2 ^ 32 - 1 ∨ (2 ^ 32 - 1 : Nat) = 0 := by
      left
      unfold U32
      omega
    rw [if_pos hc]
    dsimp only []
    split
    · simp
    · split
      · simp
      · exact ih (k + 1) st'

/-- C7 counterexample: with the status register reading idle (and only
idle) on every poll, npu_rt_wait with a 10 us timeout returns Timeout
rather than succeeding immediately, refuting the claim that idle counts
as success for the firmware wait. -/
theorem C7_counterexample_idle_not_success :
    ((fun _ => STATUS_IDLE) : Nat → Nat) 0 &&& STATUS_IDLE ≠ 0 ∧
    (npu_rt_wait 10 fwSt0 (fun _ => STATUS_IDLE) 2).map Prod.fst
      = some FW_ERROR_TIMEOUT ∧
    some FW_ERROR_TIMEOUT ≠ some FW_OK := by
  refine ⟨by decide, ?_, by decide⟩
  rfl

/-- C7 amended: npu_rt_wait polls the status register every 10 us and
succeeds immediately when done is set with error clear (idle alone is not
success at the firmware level; the driver-level wait_for_idle succeeds
immediately on done or idle, provided its uint32 deadline timeout_ms*1000
has not wrapped to 0); with a nonzero timeout whose deadline is reachable
by the uint32 elapsed counter (timeout + 9 < 2^32) it returns Timeout
once elapsed polling reaches the timeout with neither done nor error
observed; with timeout 0 it never returns Timeout; at timeout = 2^32 - 1
the wrapped even elapsed counter never reaches the deadline, so it never
returns Timeout either (it polls forever); and at timeout_ms = 2^29 the
driver deadline wraps to 0 and wait_for_idle returns Timeout without a
single poll. -/
theorem C7_amended_wait_behaviour :
    (∀ (st : FwState) (trace : Nat → Nat) (timeout fuel : Nat),
      st.initialized = true →
      trace 0 &&& (STATUS_DONE ||| STATUS_ERROR) = STATUS_DONE →
      (npu_rt_wait timeout st trace fuel).map Prod.fst = some FW_OK) ∧
    (∀ (st : FwState) (trace : Nat → Nat) (timeout fuel : Nat),
      st.initialized = true → timeout ≠ 0 → timeout + 9 < 2 ^ 32 →
      (∀ j, trace j &&& (STATUS_DONE ||| STATUS_ERROR) ≠ STATUS_DONE) →
      (∀ j, trace j &&& STATUS_ERROR = 0) →
      timeout ≤ 10 * fuel →
      npu_rt_wait timeout st trace fuel = some (FW_ERROR_TIMEOUT, st)) ∧
    (∀ (st : FwState) (trace : Nat → Nat) (fuel : Nat),
      (npu_rt_wait 0 st trace fuel).map Prod.fst ≠ some FW_ERROR_TIMEOUT) ∧
    (∀ (st : FwState) (trace : Nat → Nat) (fuel : Nat),
      (npu_rt_wait (2 ^ 32 - 1) st trace fuel).map Prod.fst
        ≠ some FW_ERROR_TIMEOUT) ∧
    (∀ (ctx : Driver.NpuContext) (trace : Nat → Nat) (timeout_ms fuel : Nat),
      (U32 (timeout_ms * 1000) ≠ 0 ∨ timeout_ms = 0) →
      trace 0 &&& Driver.NPU_STATUS_ERROR = 0 →
      (trace 0 &&& Driver.NPU_STATUS_DONE ≠ 0 ∨
       trace 0 &&& Driver.NPU_STATUS_IDLE ≠ 0) →
      (Driver.wait_for_idle ctx trace timeout_ms fuel 0).map Prod.fst
        = some Driver.NpuStatus.NPU_OK) ∧
    (∀ (ctx : Driver.NpuContext) (trace : Nat → Nat) (fuel : Nat),
      Driver.wait_for_idle ctx trace (2 ^ 29) fuel 0
        = some (Driver.NpuStatus.NPU_ERROR_TIMEOUT, ctx)) := by
  refine ⟨?_, ?_, ?_, ?_, ?_, ?_⟩
  · intro st trace timeout fuel h1 h2
    rw [npu_rt_wait]
    simp only [h1, Bool.not_true, Bool.false_eq_true, if_false]
    have hc : U32 (10 * 0) < timeout ∨ timeout = 0 := by
      unfold U32
      omega
    cases fuel <;>
      · rw [wait_status]
        rw [if_pos hc]
        simp [h2]
  · intro st trace timeout fuel h1 h2 hb h3 h4 h5
    rw [npu_rt_wait]
    simp only [h1, Bool.not_true, Bool.false_eq_true, if_false]
    rw [wait_status_timeout st trace _ _ timeout h2 hb h3 h4 fuel 0
      (by omega) (by omega)]
    simp
  · intro st trace fuel
    rw [npu_rt_wait]
    by_cases h1 : st.initialized
    · simp only [h1, Bool.not_true, Bool.false_eq_true, if_false]
      rcases hw : wait_status st trace (STATUS_DONE ||| STATUS_ERROR) STATUS_DONE 0 fuel 0
        with _ | ⟨s, st1⟩
      · simp
      · have hs : s ≠ FW_ERROR_TIMEOUT := by
          intro h
          rw [h] at hw
          exact wait_status_zero_no_timeout st trace _ _ fuel 0 st1 hw
        by_cases h2 : s = FW_OK
        · simp [h2]
        · simp [h2, hs]
    · simp [h1]
  · intro st trace fuel
    rw [npu_rt_wait]
    by_cases h1 : st.initialized
    · simp only [h1, Bool.not_true, Bool.false_eq_true, if_false]
      rcases hw : wait_status st trace (STATUS_DONE ||| STATUS_ERROR) STATUS_DONE
          (2 ^ 32 - 1) fuel 0 with _ | ⟨s, st1⟩
      · simp
      · have hs : s ≠ FW_ERROR_TIMEOUT := by
          intro h
          rw [h] at hw
          exact wait_status_maxu32_no_timeout st trace _ _ fuel 0 st1 hw
        by_cases h2 : s = FW_OK
        · simp [h2]
        · simp [h2, hs]
    · simp [h1]
  · intro ctx trace timeout_ms fuel hdl h1 h2
    have hc : U32 (10 * 0) < U32 (timeout_ms * 1000) ∨ timeout_ms = 0 := by
      rcases hdl with h | h
      · left
        unfold U32 at h ⊢
        omega
      · exact Or.inr h
    cases fuel <;>
      · rw [Driver.wait_for_idle]
        rw [if_pos hc]
        rcases h2 with h2 | h2
        · simp [h1, h2]
        · by_cases hd : trace 0 &&& Driver.NPU_STATUS_DONE ≠ 0
          · simp [h1, hd]
          · simp [h1, hd, h2]
  · intro ctx trace fuel
    have hc : ¬(U32 (10 * 0) < U32 (2 ^ 29 * 1000) ∨ (2 ^ 29 : Nat) = 0) := by
      unfold U32
      norm_num
    cases fuel <;>
      · rw [Driver.wait_for_idle]
        rw [if_neg hc]

/-- Witness for C7 amended: a done-first trace, an idle-only trace
against a 10 us deadline, a zero-timeout and a max-uint32-timeout run on
an all-busy trace, the driver wait on a done-first trace, and the driver
wait at the wrapping 2^29 ms timeout. -/
theorem C7_amended_wait_behaviour_witness :
    (npu_rt_wait 50 fwSt0 (fun _ => STATUS_DONE) 3).map Prod.fst = some FW_OK ∧
    npu_rt_wait 10 fwSt0 (fun _ => STATUS_IDLE) 1 = some (FW_ERROR_TIMEOUT, fwSt0) ∧
    (npu_rt_wait 0 fwSt0 (fun _ => STATUS_BUSY) 7).map Prod.fst
      ≠ some FW_ERROR_TIMEOUT ∧
    (npu_rt_wait (2 ^ 32 - 1) fwSt0 (fun _ => STATUS_BUSY) 4).map Prod.fst
      ≠ some FW_ERROR_TIMEOUT ∧
    (Driver.wait_for_idle drvIdle (fun _ => Driver.NPU_STATUS_DONE) 5 2 0).map Prod.fst
      = some Driver.NpuStatus.NPU_OK ∧
    Driver.wait_for_idle drvIdle (fun _ => Driver.NPU_STATUS_DONE) (2 ^ 29) 1 0
      = some (Driver.NpuStatus.NPU_ERROR_TIMEOUT, drvIdle) :=
  ⟨C7_amended_wait_behaviour.1 fwSt0 (fun _ => STATUS_DONE) 50 3 rfl (by decide),
   C7_amended_wait_behaviour.2.1 fwSt0 (fun _ => STATUS_IDLE) 10 1 rfl (by decide)
     (by decide)
     (fun j => (by decide : STATUS_IDLE &&& (STATUS_DONE ||| STATUS_ERROR) ≠ STATUS_DONE))
     (fun j => (by decide : STATUS_IDLE &&& STATUS_ERROR = 0)) (by decide),
   C7_amended_wait_behaviour.2.2.1 fwSt0 (fun _ => STATUS_BUSY) 7,
   C7_amended_wait_behaviour.2.2.2.1 fwSt0 (fun _ => STATUS_BUSY) 4,
   C7_amended_wait_behaviour.2.2.2.2.1 drvIdle (fun _ => Driver.NPU_STATUS_DONE) 5 2
     (Or.inl (by decide)) (by decide) (Or.inl (by decide)),
   C7_amended_wait_behaviour.2.2.2.2.2 drvIdle (fun _ => Driver.NPU_STATUS_DONE) 1⟩

/- ==========================================================================
   C8: model rejection on bad magic / newer version
   ========================================================================== -/

/-- C8: an initialized runtime rejects a model whose header magic differs
from MODEL_MAGIC, or whose version is newer than MODEL_VERSION, with the
invalid-model error (FW_ERROR_INVALID_PARAM) and an entirely unchanged
state: no instruction or weight data is copied and no register is
written. -/
theorem C8_bad_model_rejected_before_load (st : FwState) (m : ModelData)
    (maddr msize : Nat) (dmaTrace : Nat → Nat) (fuel : Nat)
    (hinit : st.initialized = true) (hsize : MODEL_HEADER_SIZE ≤ msize)
    (hbad : m.magic ≠ MODEL_MAGIC ∨ MODEL_VERSION < m.version) :
    npu_rt_load_model m maddr msize st dmaTrace fuel
      = some (FW_ERROR_INVALID_PARAM, st) := by
  have h1 : ¬ msize < MODEL_HEADER_SIZE := by omega
  rcases hbad with hm | hv
  · simp [npu_rt_load_model, hinit, h1, hm]
  · by_cases hm : m.magic = MODEL_MAGIC
    · simp [npu_rt_load_model, hinit, h1, hm, hv]
    · simp [npu_rt_load_model, hinit, h1, hm]

/-- A model blob whose header magic is wrong (zero). -/
def badMagicModel : ModelData :=
  { magic := 0, version := 0x0100, num_layers := 1, weight_size := 0,
    inst_count := 1, input_size := 0, output_size := 0, workspace_size := 0,
    checksum := 0, instructions := [INST_HALT], weights := [] }

/-- Witness for C8 on a concrete corrupted-magic model. -/
theorem C8_bad_model_rejected_before_load_witness :
    npu_rt_load_model badMagicModel 0 64 fwSt0 (fun _ => 0) 1
      = some (FW_ERROR_INVALID_PARAM, fwSt0) :=
  C8_bad_model_rejected_before_load fwSt0 badMagicModel 0 64 (fun _ => 0) 1
    rfl (by decide) (Or.inl (by decide))

/- ==========================================================================
   C9: fully-connected lowering
   ========================================================================== -/

theorem configure_preserves_initialized (layer : LayerDesc) (st : FwState) :
    (configure_layer_regs layer st).initialized = st.initialized := by
  simp [configure_layer_regs, REG_WRITE]

theorem load_instructions_overflow (st : FwState) (insts : List Nat)
    (h1 : st.initialized = true) (h2 : insts.length > NPU_INST_BUF_ENTRIES) :
    npu_rt_load_instructions insts st = (FW_ERROR_OVERFLOW, st) := by
  have h3 : insts.length ≠ 0 := by
    intro h
    rw [h] at h2
    exact absurd h2 (by decide)
  simp [npu_rt_load_instructions, h1, h2, h3]

/-- When the compiled sequence does not fit the 1024-entry device
instruction buffer, npu_rt_exec_conv stops at the load step with
overflow, after only the layer-register writes. -/
theorem exec_conv_overflow (layer : LayerDesc) (st : FwState)
    (trace : Nat → Nat) (fuel : Nat) (h1 : st.initialized = true)
    (h2 : (conv_insts layer).length > NPU_INST_BUF_ENTRIES) :
    npu_rt_exec_conv layer st trace fuel
      = some (FW_ERROR_OVERFLOW, configure_layer_regs layer st) := by
  have hld := load_instructions_overflow (configure_layer_regs layer st)
    (conv_insts layer) (by rw [configure_preserves_initialized]; exact h1) h2
  simp [npu_rt_exec_conv, hld]

/-- A fully-connected layer whose flattened input (1 x 256 x 256 = 65536)
overflows the uint16_t channel field. -/
def C9_layer : LayerDesc :=
  { mkConvLayer 1 1 with
      type := LAYER_FC, activation := ACT_NONE,
      input := { tensor0 with c := 1, h := 256, w := 256 } }

/-- C9 counterexample: npu_rt_exec_fc stores the flattened channel count
into a uint16_t, so for a 65536-element input the effective channel count
is 0 and the 5-instruction program runs to completion, whereas
npu_rt_exec_conv on the claim's untruncated descriptor (in_ch = 65536)
would emit 8197 instructions and fail with overflow: the two behaviours
differ. -/
theorem C9_counterexample_u16_truncation :
    (npu_rt_exec_fc C9_layer fwSt0 (fun _ => STATUS_DONE) 1).map Prod.fst
      = some FW_OK ∧
    (npu_rt_exec_conv (fc_as_conv_claim C9_layer) fwSt0 (fun _ => STATUS_DONE) 1).map
        Prod.fst = some FW_ERROR_OVERFLOW ∧
    npu_rt_exec_fc C9_layer fwSt0 (fun _ => STATUS_DONE) 1
      ≠ npu_rt_exec_conv (fc_as_conv_claim C9_layer) fwSt0 (fun _ => STATUS_DONE) 1 := by
  have hlen : (conv_insts (fc_as_conv_claim C9_layer)).length = 8197 := by
    rw [conv_insts_length]
    norm_num [fc_as_conv_claim, C9_layer, mkConvLayer, tensor0,
      NPU_PE_COLS, NPU_PE_ROWS]
  have h1 : (npu_rt_exec_fc C9_layer fwSt0 (fun _ => STATUS_DONE) 1).map Prod.fst
      = some FW_OK := by rfl
  have h2 : (npu_rt_exec_conv (fc_as_conv_claim C9_layer) fwSt0
        (fun _ => STATUS_DONE) 1).map Prod.fst = some FW_ERROR_OVERFLOW := by
    rw [exec_conv_overflow (fc_as_conv_claim C9_layer) fwSt0 (fun _ => STATUS_DONE) 1
      rfl (by rw [hlen]; decide)]
    rfl
  refine ⟨h1, h2, ?_⟩
  intro h
  rw [h] at h1
  rw [h1] at h2
  exact absurd h2 (by decide)

/-- C9 amended: npu_rt_exec_fc is exactly npu_rt_exec_conv applied to the
transformed descriptor (no tiling logic of its own), and the transformed
descriptor matches the spec wording amended with the uint16 truncation:
type conv2d, kernel and stride 1x1, paddings 0, spatial dimensions 1x1,
and input channel count (c * h * w) mod 2^16. -/
theorem C9_amended_fc_delegates_to_conv :
    (∀ (layer : LayerDesc) (st : FwState) (trace : Nat → Nat) (fuel : Nat),
      npu_rt_exec_fc layer st trace fuel
        = npu_rt_exec_conv (fc_as_conv layer) st trace fuel) ∧
    (∀ layer : LayerDesc, fc_as_conv layer = fc_as_conv_spec_u16 layer) :=
  ⟨fun _ _ _ _ => rfl, fun _ => rfl⟩

/-- Witness for C9 amended at a concrete layer and state. -/
theorem C9_amended_fc_delegates_to_conv_witness :
    npu_rt_exec_fc (mkConvLayer 4 4) fwSt0 (fun _ => STATUS_DONE) 1
      = npu_rt_exec_conv (fc_as_conv (mkConvLayer 4 4)) fwSt0
          (fun _ => STATUS_DONE) 1 ∧
    fc_as_conv (mkConvLayer 4 4) = fc_as_conv_spec_u16 (mkConvLayer 4 4) :=
  ⟨C9_amended_fc_delegates_to_conv.1 (mkConvLayer 4 4) fwSt0 (fun _ => STATUS_DONE) 1,
   C9_amended_fc_delegates_to_conv.2 (mkConvLayer 4 4)⟩

/- ==========================================================================
   C10: utilization guard
   ========================================================================== -/

/-- A firmware state whose cached utilization is 50 while the hardware
cycle counters read zero. -/
def C10_state : FwState :=
  { fwSt0 with ctx := { fwCtx0 with perf := { perf0 with pe_utilization := 50 } } }

/-- C10 counterexample: update_perf_stats has no else branch, so when the
total cycle counter reads 0 the reported PE utilization is whatever was
cached before (here 50), not 0. -/
theorem C10_counterexample_stale_utilization :
    (update_perf_stats C10_state).total_cycles = 0 ∧
    (update_perf_stats C10_state).pe_utilization = 50 ∧
    (50 : Rat) ≠ 0 := by
  refine ⟨rfl, rfl, by norm_num⟩

/-- wait_for_idle only ever changes the driver state field, never the
cached performance statistics. -/
theorem wait_for_idle_preserves_perf (ctx : Driver.NpuContext)
    (trace : Nat → Nat) (timeout_ms : Nat) :
    ∀ (fuel k : Nat) (s : Driver.NpuStatus) (ctx' : Driver.NpuContext),
      Driver.wait_for_idle ctx trace timeout_ms fuel k = some (s, ctx') →
      ctx'.perf_stats = ctx.perf_stats := by
  intro fuel
  induction fuel with
  | zero =>
    intro k s ctx' h
    rw [Driver.wait_for_idle] at h
    dsimp only [] at h
    split at h
    · split at h
      · cases h
        rfl
      · split at h
        · cases h
          rfl
        · split at h
          · cases h
            rfl
          · simp at h
    · cases h
      rfl
  | succ n ih =>
    intro k s ctx' h
    rw [Driver.wait_for_idle] at h
    dsimp only [] at h
    split at h
    · split at h
      · cases h
        rfl
      · split at h
        · cases h
          rfl
        · split at h
          · cases h
            rfl
          · exact ih (k + 1) s ctx' h
    · cases h
      rfl

theorem update_perf_stats_total (st : FwState) :
    (update_perf_stats st).total_cycles =
      ((REG_READ st REG_PERF_CYCLES_HI) <<< 32 ||| REG_READ st REG_PERF_CYCLES_LO) := by
  unfold update_perf_stats
  dsimp only []
  split <;> rfl

theorem update_perf_stats_stall (st : FwState) :
    (update_perf_stats st).stall_cycles = REG_READ st REG_PERF_STALL_CNT := by
  unfold update_perf_stats
  dsimp only []
  split <;> rfl

theorem update_perf_stats_util_zero (st : FwState)
    (h : (REG_READ st REG_PERF_CYCLES_HI) <<< 32 ||| REG_READ st REG_PERF_CYCLES_LO = 0) :
    (update_perf_stats st).pe_utilization = st.ctx.perf.pe_utilization := by
  unfold update_perf_stats
  dsimp only []
  rw [if_neg]
  omega

theorem update_perf_stats_util_pos (st : FwState)
    (h : 0 < (REG_READ st REG_PERF_CYCLES_HI) <<< 32 ||| REG_READ st REG_PERF_CYCLES_LO) :
    (update_perf_stats st).pe_utilization =
      (((2 ^ 64 + ((REG_READ st REG_PERF_CYCLES_HI) <<< 32 ||| REG_READ st REG_PERF_CYCLES_LO)
          - REG_READ st REG_PERF_STALL_CNT) % 2 ^ 64 : Nat) : Rat)
        / (((REG_READ st REG_PERF_CYCLES_HI) <<< 32 ||| REG_READ st REG_PERF_CYCLES_LO : Nat) : Rat)
        * 100 := by
  unfold update_perf_stats
  dsimp only []
  rw [if_pos h]

/-- C10 amended: the utilization division is evaluated only under the
guard total_cycles > 0, where its denominator is nonzero, so no division
by zero occurs; when the total cycle counter reads 0, update_perf_stats
leaves pe_utilization at its previously cached value (0 in a freshly
initialized or reset context) instead of assigning 0, while the driver's
npu_run, which clears its cached statistics before starting, does report
utilization 0 when the counter reads 0. -/
theorem C10_amended_utilization_guard :
    (∀ st : FwState, (update_perf_stats st).total_cycles = 0 →
      (update_perf_stats st).pe_utilization = st.ctx.perf.pe_utilization) ∧
    (∀ st : FwState, 0 < (update_perf_stats st).total_cycles →
      (((update_perf_stats st).total_cycles : Nat) : Rat) ≠ 0 ∧
      (update_perf_stats st).pe_utilization =
        (((2 ^ 64 + (update_perf_stats st).total_cycles
            - (update_perf_stats st).stall_cycles) % 2 ^ 64 : Nat) : Rat)
          / (((update_perf_stats st).total_cycles : Nat) : Rat) * 100) ∧
    (∀ (ctx : Driver.NpuContext) (trace : Nat → Nat) (reads : Driver.PerfReads)
        (timeout_ms fuel : Nat) (s : Driver.NpuStatus) (ctx' : Driver.NpuContext),
      ctx.state ≠ Driver.NPU_STATE_RUNNING →
      Driver.npu_run ctx trace reads timeout_ms fuel = some (s, ctx') →
      U32 reads.cycles = 0 →
      ctx'.perf_stats.utilization = 0) := by
  refine ⟨?_, ?_, ?_⟩
  · intro st h
    rw [update_perf_stats_total] at h
    exact update_perf_stats_util_zero st h
  · intro st h
    rw [update_perf_stats_total] at h
    refine ⟨?_, ?_⟩
    · rw [update_perf_stats_total]
      exact_mod_cast Nat.pos_iff_ne_zero.mp h
    · rw [update_perf_stats_util_pos st h, update_perf_stats_total,
        update_perf_stats_stall]
  · intro ctx trace reads timeout_ms fuel s ctx' hrun h hcz
    unfold Driver.npu_run at h
    rw [if_neg hrun] at h
    dsimp only [] at h
    rcases hw : Driver.wait_for_idle
        (Driver.reg_write { Driver.npu_reset_perf_counters ctx with
          state := Driver.NPU_STATE_RUNNING } Driver.NPU_REG_CTRL
          (Driver.NPU_CTRL_ENABLE ||| Driver.NPU_CTRL_START))
        trace timeout_ms fuel 0 with _ | p
    · rw [hw] at h
      simp at h
    · obtain ⟨s1, ctx4⟩ := p
      rw [hw] at h
      dsimp only [] at h
      have hperf : ctx4.perf_stats =
          (Driver.reg_write { Driver.npu_reset_perf_counters ctx with
            state := Driver.NPU_STATE_RUNNING } Driver.NPU_REG_CTRL
            (Driver.NPU_CTRL_ENABLE ||| Driver.NPU_CTRL_START)).perf_stats :=
        wait_for_idle_preserves_perf _ trace timeout_ms fuel 0 s1 ctx4 hw
      have hz : ctx4.perf_stats.utilization = 0 := by
        rw [hperf]
        simp [Driver.reg_write, Driver.npu_reset_perf_counters]
      cases h
      simp [hcz, hz]

/-- A state whose cycle counter reads 100 and stall counter 25. -/
def C10_pos_state : FwState :=
  { fwSt0 with regs := fun a =>
      if a = REG_PERF_CYCLES_LO then 100
      else if a = REG_PERF_STALL_CNT then 25 else 0 }

def C10_run_pair : Driver.NpuStatus × Driver.NpuContext :=
  (Driver.npu_run drvIdle (fun _ => Driver.NPU_STATUS_DONE)
    { cycles := 0, inst := 0, mac := 0, stall := 0 } 1 1).getD
    (Driver.NpuStatus.NPU_ERROR_HW_ERROR, drvIdle)

/-- Witness for C10 amended at concrete states: zero counters leave the
cached utilization, positive counters divide by a nonzero denominator,
and a concrete npu_run with zero counters reports utilization 0. -/
theorem C10_amended_utilization_guard_witness :
    (update_perf_stats fwSt0).total_cycles = 0 ∧
    (update_perf_stats fwSt0).pe_utilization = fwSt0.ctx.perf.pe_utilization ∧
    0 < (update_perf_stats C10_pos_state).total_cycles ∧
    ((((update_perf_stats C10_pos_state).total_cycles : Nat) : Rat) ≠ 0 ∧
     (update_perf_stats C10_pos_state).pe_utilization =
       (((2 ^ 64 + (update_perf_stats C10_pos_state).total_cycles
           - (update_perf_stats C10_pos_state).stall_cycles) % 2 ^ 64 : Nat) : Rat)
         / (((update_perf_stats C10_pos_state).total_cycles : Nat) : Rat) * 100) ∧
    drvIdle.state ≠ Driver.NPU_STATE_RUNNING ∧
    Driver.npu_run drvIdle (fun _ => Driver.NPU_STATUS_DONE)
        { cycles := 0, inst := 0, mac := 0, stall := 0 } 1 1
      = some (C10_run_pair.1, C10_run_pair.2) ∧
    C10_run_pair.2.perf_stats.utilization = 0 :=
  ⟨rfl,
   C10_amended_utilization_guard.1 fwSt0 rfl,
   by decide,
   C10_amended_utilization_guard.2.1 C10_pos_state (by decide),
   by decide,
   rfl,
   C10_amended_utilization_guard.2.2 drvIdle (fun _ => Driver.NPU_STATUS_DONE)
     { cycles := 0, inst := 0, mac := 0, stall := 0 } 1 1
     C10_run_pair.1 C10_run_pair.2 (by decide) rfl (by decide)⟩
